import Mathlib

/-!
Verification of the proxyclaw control plane against its natural-language
specification.  Every definition in this file is a shallow embedding of a
function of the TypeScript source tree (the source file and, where helpful,
the line numbers are given in the doc comment); machine integers are modelled
as Nat (ports, byte values, timestamps), JavaScript exceptions as Except /
explicit outcome values, and the mongoose document plus the persisted record
as explicit values threaded through the functions.
-/

set_option maxRecDepth 4000

namespace Proxyclaw

/-! ## Deployment states and the transition table
(src/src/utils/constants.ts lines 79-105, identical table in
src/unnamed/part_002 lines 122-131) -/

/-- The eight deployment states of DEPLOYMENT_STATES (constants.ts 79-88). -/
inductive DeploymentStatus where
  | idle
  | configuring
  | provisioning
  | starting
  | healthy
  | stopped
  | error
  | restarting
deriving DecidableEq, Repr

/-- VALID_STATE_TRANSITIONS (constants.ts 96-105): for each current state the
list of permitted next states, transcribed row by row from the source. -/
def VALID_STATE_TRANSITIONS : DeploymentStatus → List DeploymentStatus
  | .idle => [.idle, .configuring, .provisioning, .error]
  | .configuring => [.configuring, .provisioning, .error]
  | .provisioning => [.provisioning, .starting, .error]
  | .starting => [.starting, .healthy, .error]
  | .healthy => [.healthy, .stopped, .restarting, .error]
  | .stopped => [.stopped, .configuring, .idle, .error, .starting]
  | .restarting => [.restarting, .starting, .healthy, .error]
  | .error => [.error, .configuring, .idle, .restarting, .stopped]

/-- isValidStateTransition (src/src/utils/validation.ts 204-212): membership of
the target state in the row of the current state. -/
def isValidStateTransition (currentState targetState : DeploymentStatus) : Bool :=
  (VALID_STATE_TRANSITIONS currentState).contains targetState

/-- A deployment record: the mongoose document fields the verified code reads
and writes (src/unnamed/part_002 lines 12-45).  Timestamps are Nat. -/
structure DeploymentRecord where
  id : String
  subdomain : String
  status : DeploymentStatus
  containerId : Option String := none
  internalPort : Option Nat := none
  errorMessage : Option String := none
  provisioningStep : Option String := none
  lastHeartbeat : Option Nat := none
  lastRequestAt : Option Nat := none
deriving DecidableEq, Repr

/-- The options bag of transitionTo (StateManager.ts 19-22). -/
structure TransitionOptions where
  errorMessage : Option String := none
  provisioningStep : Option String := none
deriving DecidableEq, Repr

/-- JavaScript truthiness of an optional string: defined and non-empty. -/
def truthyStr : Option String → Bool
  | some s => s != ""
  | none => false

/-- The exception thrown for an illegal transition
(StateTransitionError, src/unnamed/part_007 lines 135-144). -/
inductive TransitionError where
  | stateTransitionError (currentState targetState : DeploymentStatus)
deriving DecidableEq, Repr

/-- The rejection guard of both transitionTo variants (StateManager.ts 28-33,
part_002 140-144): the transition is invalid and the target is neither of the
two escape hatches. -/
def transitionRejected (currentState newState : DeploymentStatus) : Bool :=
  !(isValidStateTransition currentState newState) &&
  !(newState == DeploymentStatus.error) && !(newState == DeploymentStatus.idle)

/-- StateManager.transitionTo (src/src/services/deployment/StateManager.ts
lines 16-67): validate (escape hatches to error and idle), set status, set
options, and on healthy clear errorMessage and set lastHeartbeat.  Note: this
variant does NOT touch lastRequestAt.  The save is the returned record. -/
def stateManagerTransitionTo (deployment : DeploymentRecord)
    (newState : DeploymentStatus) (options : TransitionOptions) (now : Nat) :
    Except TransitionError DeploymentRecord :=
  let currentState := deployment.status
  if transitionRejected currentState newState then
    Except.error (TransitionError.stateTransitionError currentState newState)
  else
    let d1 := { deployment with status := newState }
    let d2 := if truthyStr options.errorMessage then
        { d1 with errorMessage := options.errorMessage } else d1
    let d3 := match options.provisioningStep with
      | some step => { d2 with provisioningStep := some step }
      | none => d2
    let d4 := if newState == DeploymentStatus.healthy then
        { d3 with errorMessage := none, lastHeartbeat := some now } else d3
    Except.ok d4

/-- DeploymentSchema.methods.transitionTo (src/unnamed/part_002 lines 133-158):
same checks and updates as the StateManager variant, except that the healthy
branch ALSO initializes lastRequestAt (line 154). -/
def schemaTransitionTo (deployment : DeploymentRecord)
    (newStatus : DeploymentStatus) (options : TransitionOptions) (now : Nat) :
    Except TransitionError DeploymentRecord :=
  let currentStatus := deployment.status
  if transitionRejected currentStatus newStatus then
    Except.error (TransitionError.stateTransitionError currentStatus newStatus)
  else
    let d1 := { deployment with status := newStatus }
    let d2 := if truthyStr options.errorMessage then
        { d1 with errorMessage := options.errorMessage } else d1
    let d3 := match options.provisioningStep with
      | some step => { d2 with provisioningStep := some step }
      | none => d2
    let d4 := if newStatus == DeploymentStatus.healthy then
        { d3 with errorMessage := none, lastHeartbeat := some now,
                  lastRequestAt := some now } else d3
    Except.ok d4

/-- The mutation semantics of a throwing transition: an exception is raised
before any field is assigned (StateManager.ts 28-33 precede line 43), so on
failure the document is unchanged. -/
def runStateManagerTransition (deployment : DeploymentRecord)
    (newState : DeploymentStatus) (options : TransitionOptions) (now : Nat) :
    DeploymentRecord × Option TransitionError :=
  match stateManagerTransitionTo deployment newState options now with
  | Except.ok d => (d, none)
  | Except.error e => (deployment, some e)

/-- Modelled from the spec: the transition table of section 4.1 of spec.md,
one Boolean per cell, transcribed row by row (check marks only). -/
def specTransitionTable (fromState toState : DeploymentStatus) : Bool :=
  match fromState, toState with
  | .idle, .idle => true
  | .idle, .configuring => true
  | .idle, .provisioning => true
  | .idle, .error => true
  | .configuring, .configuring => true
  | .configuring, .provisioning => true
  | .configuring, .error => true
  | .provisioning, .provisioning => true
  | .provisioning, .starting => true
  | .provisioning, .error => true
  | .starting, .starting => true
  | .starting, .healthy => true
  | .starting, .error => true
  | .healthy, .healthy => true
  | .healthy, .stopped => true
  | .healthy, .error => true
  | .healthy, .restarting => true
  | .stopped, .idle => true
  | .stopped, .configuring => true
  | .stopped, .starting => true
  | .stopped, .stopped => true
  | .stopped, .error => true
  | .restarting, .starting => true
  | .restarting, .healthy => true
  | .restarting, .error => true
  | .restarting, .restarting => true
  | .error, .idle => true
  | .error, .configuring => true
  | .error, .stopped => true
  | .error, .error => true
  | .error, .restarting => true
  | _, _ => false

theorem not_rejected_eq_spec_allowance (s t : DeploymentStatus) :
    (!(transitionRejected s t)) =
    (specTransitionTable s t || (s == t) || (t == DeploymentStatus.error) ||
      (t == DeploymentStatus.idle)) := by
  cases s <;> cases t <;> rfl

theorem isOk_stateManagerTransitionTo (deployment : DeploymentRecord)
    (toState : DeploymentStatus) (options : TransitionOptions) (now : Nat) :
    (stateManagerTransitionTo deployment toState options now).isOk =
      !(transitionRejected deployment.status toState) := by
  cases h : transitionRejected deployment.status toState <;>
    simp [stateManagerTransitionTo, h, Except.isOk, Except.toBool]

/-- Claim C5: for every ordered pair of states, a requested transition
succeeds exactly when the spec table permits it (self-transitions always
allowed) or the target is one of the error/idle escape hatches; every other
attempt fails with the state-transition error naming the pair and leaves the
record unchanged. -/
theorem c5_state_machine_closure (deployment : DeploymentRecord)
    (toState : DeploymentStatus) (options : TransitionOptions) (now : Nat) :
    ((stateManagerTransitionTo deployment toState options now).isOk =
      (specTransitionTable deployment.status toState ||
        (deployment.status == toState) || (toState == DeploymentStatus.error) ||
        (toState == DeploymentStatus.idle))) ∧
    ((stateManagerTransitionTo deployment toState options now).isOk = false →
      runStateManagerTransition deployment toState options now =
        (deployment,
          some (TransitionError.stateTransitionError deployment.status toState))) := by
  constructor
  · rw [isOk_stateManagerTransitionTo]
    exact not_rejected_eq_spec_allowance deployment.status toState
  · intro hfail
    rw [isOk_stateManagerTransitionTo] at hfail
    have hrej : transitionRejected deployment.status toState = true := by
      cases h : transitionRejected deployment.status toState
      · rw [h] at hfail; simp at hfail
      · rfl
    simp [runStateManagerTransition, stateManagerTransitionTo, hrej]

/-- Closed witness for C5: from starting, moving to healthy succeeds and
moving to stopped fails leaving the record unchanged. -/
theorem c5_state_machine_closure_witness :
    runStateManagerTransition
        { id := "d1", subdomain := "alice", status := DeploymentStatus.starting }
        DeploymentStatus.stopped {} 5 =
      ({ id := "d1", subdomain := "alice", status := DeploymentStatus.starting },
        some (TransitionError.stateTransitionError DeploymentStatus.starting
          DeploymentStatus.stopped)) :=
  (c5_state_machine_closure
    { id := "d1", subdomain := "alice", status := DeploymentStatus.starting }
    DeploymentStatus.stopped {} 5).2 (by decide)

/-- The deployment record on which the health-check success callback of
spawnAgent fires: starting, container and port set, no lastRequestAt yet. -/
def freshStartingRecord : DeploymentRecord :=
  { id := "d1", subdomain := "alice", status := DeploymentStatus.starting,
    containerId := some "c1", internalPort := some 20000,
    errorMessage := some "previous failure",
    provisioningStep := some "Health checking..." }

/-- Claim C4 (code bug evidence): the healthy transition performed through
StateManager.transitionTo — the function the health-check success callback of
spawnAgent invokes (PortManager.ts lines 512-514) — clears errorMessage and
sets lastHeartbeat but leaves lastRequestAt unset, while the schema method
transitionTo (part_002 lines 151-155) additionally initializes lastRequestAt
as the claim states. -/
theorem c4_healthy_transition_last_request_at :
    stateManagerTransitionTo freshStartingRecord DeploymentStatus.healthy {} 777 =
      Except.ok
        { id := "d1", subdomain := "alice",
          status := DeploymentStatus.healthy, containerId := some "c1",
          internalPort := some 20000, errorMessage := none,
          provisioningStep := some "Health checking...",
          lastHeartbeat := some 777, lastRequestAt := none } ∧
    schemaTransitionTo freshStartingRecord DeploymentStatus.healthy {} 777 =
      Except.ok
        { id := "d1", subdomain := "alice",
          status := DeploymentStatus.healthy, containerId := some "c1",
          internalPort := some 20000, errorMessage := none,
          provisioningStep := some "Health checking...",
          lastHeartbeat := some 777, lastRequestAt := some 777 } := by
  constructor <;> rfl

/-! ## Substring search (JavaScript String.prototype.includes) -/

/-- Whether the pattern is an initial segment of the text. -/
def startsWithChars : List Char → List Char → Bool
  | [], _ => true
  | _ :: _, [] => false
  | p :: ps, t :: ts => p == t && startsWithChars ps ts

/-- Whether the pattern occurs anywhere in the text. -/
def containsChars (pat : List Char) : List Char → Bool
  | [] => startsWithChars pat []
  | t :: ts => startsWithChars pat (t :: ts) || containsChars pat ts

/-- Model of JavaScript msg.includes(pat). -/
def containsSubstr (s pat : String) : Bool :=
  containsChars pat.data s.data

/-! ## The persistence layer around internalPort
(schema: src/unnamed/part_002; reservation: src/src/services/PortManager.ts) -/

/-- Index properties a schema declares for a field. -/
structure FieldIndexDecl where
  unique : Bool
  sparse : Bool
deriving DecidableEq, Repr

/-- The declaration of Deployment.internalPort in the persistence schema
(src/unnamed/part_002 line 24): Number, sparse, and crucially WITHOUT a
unique flag. -/
def internalPortIndexDecl : FieldIndexDecl :=
  { unique := false, sparse := true }

/-- Modelled from the spec: section 6.2 declares "A unique index on
Deployment.subdomain and on Deployment.internalPort (partial, where
non-null)" — the index the claim says the schema carries. -/
def specInternalPortIndexDecl : FieldIndexDecl :=
  { unique := true, sparse := true }

/-- Deployment.findOneAndUpdate of atomicReservePort (PortManager.ts 212-216):
find the record by id with status configuring and set internalPort, the store
raising a duplicate-key error exactly when a unique index is declared for the
field and another record already holds the value. -/
def findOneAndUpdateReservePort (decl : FieldIndexDecl)
    (coll : List DeploymentRecord) (deploymentId : String) (port : Nat) :
    Except String (Option (List DeploymentRecord)) :=
  match coll.find? (fun d =>
      d.id == deploymentId && d.status == DeploymentStatus.configuring) with
  | none => Except.ok none
  | some _ =>
    if decl.unique && coll.any (fun e =>
        e.id != deploymentId && e.internalPort == some port) then
      Except.error "E11000 duplicate key error collection"
    else
      Except.ok (some (coll.map (fun e =>
        if e.id == deploymentId then { e with internalPort := some port } else e)))

/-- The outcome of atomicReservePort: a returned Boolean or a rethrown
exception. -/
inductive ReserveOutcome where
  | result (reserved : Bool)
  | thrown (msg : String)
deriving DecidableEq, Repr

/-- atomicReservePort (PortManager.ts 202-241).  The stillFree argument is the
outcome of the final isPortTrulyFreeOnHost re-check; the returned triple is
(outcome, collection, in-flight set).  Faithful to the source, the in-flight
entry is deleted on the bind-failure path (line 207), on success (line 226)
and in the catch block (line 231), but NOT on the record-gone /
status-changed path (lines 218-224). -/
def atomicReservePort (decl : FieldIndexDecl) (stillFree : Bool)
    (coll : List DeploymentRecord) (inFlight : List Nat)
    (deploymentId : String) (port : Nat) :
    ReserveOutcome × List DeploymentRecord × List Nat :=
  if !stillFree then
    (ReserveOutcome.result false, coll, inFlight.erase port)
  else
    match findOneAndUpdateReservePort decl coll deploymentId port with
    | Except.ok none => (ReserveOutcome.result false, coll, inFlight)
    | Except.ok (some coll2) =>
        (ReserveOutcome.result true, coll2, inFlight.erase port)
    | Except.error msg =>
        let inFlight2 := inFlight.erase port
        if containsSubstr msg "E11000" || containsSubstr msg "duplicate" then
          (ReserveOutcome.result false, coll, inFlight2)
        else
          (ReserveOutcome.thrown msg, coll, inFlight2)

/-- A record whose status a concurrent actor has already moved away
from configuring when the conditional update runs. -/
def c3StaleRecord : DeploymentRecord :=
  { id := "d1", subdomain := "alice", status := DeploymentStatus.starting }

/-- Claim C3 counterexample: on the record-gone / status-changed failure path
atomicReservePort returns false but the in-flight entry for the port is NOT
cleared, contradicting the claim that every failure path clears it. -/
theorem c3_reserve_counterexample :
    (atomicReservePort internalPortIndexDecl true [c3StaleRecord] [20000]
        "d1" 20000).1 = ReserveOutcome.result false ∧
    20000 ∈ (atomicReservePort internalPortIndexDecl true [c3StaleRecord]
        [20000] "d1" 20000).2.2 := by
  decide

/-- The record-gone / status-changed condition of the conditional update. -/
def reserveRecordGone (coll : List DeploymentRecord) (deploymentId : String) : Bool :=
  (coll.find? (fun d =>
    d.id == deploymentId && d.status == DeploymentStatus.configuring)).isNone

/-- The duplicate-key condition of the conditional update. -/
def reserveWouldCollide (decl : FieldIndexDecl) (coll : List DeploymentRecord)
    (deploymentId : String) (port : Nat) : Bool :=
  decl.unique && coll.any (fun e =>
    e.id != deploymentId && e.internalPort == some port)

/-- Claim C3 (amended): atomicReservePort re-checks the OS bind first; failure
of the re-check returns false with the in-flight entry cleared; the
conditional update sets internalPort only when the record still has status
configuring; a duplicate-key collision returns false with the entry cleared;
success returns true with the entry cleared; but on the record-gone /
status-changed path it returns false leaving the in-flight entry in place. -/
theorem c3_reserve_paths (decl : FieldIndexDecl) (stillFree : Bool)
    (coll : List DeploymentRecord) (inFlight : List Nat)
    (deploymentId : String) (port : Nat) :
    (stillFree = false →
      atomicReservePort decl stillFree coll inFlight deploymentId port =
        (ReserveOutcome.result false, coll, inFlight.erase port)) ∧
    (stillFree = true → reserveRecordGone coll deploymentId = true →
      atomicReservePort decl stillFree coll inFlight deploymentId port =
        (ReserveOutcome.result false, coll, inFlight)) ∧
    (stillFree = true → reserveRecordGone coll deploymentId = false →
      reserveWouldCollide decl coll deploymentId port = true →
      atomicReservePort decl stillFree coll inFlight deploymentId port =
        (ReserveOutcome.result false, coll, inFlight.erase port)) ∧
    (stillFree = true → reserveRecordGone coll deploymentId = false →
      reserveWouldCollide decl coll deploymentId port = false →
      atomicReservePort decl stillFree coll inFlight deploymentId port =
        (ReserveOutcome.result true,
          coll.map (fun e => if e.id == deploymentId then
            { e with internalPort := some port } else e),
          inFlight.erase port)) := by
  refine ⟨fun h => ?_, fun h hg => ?_, fun h hg hc => ?_, fun h hg hc => ?_⟩
  · subst h; rfl
  · subst h
    unfold atomicReservePort findOneAndUpdateReservePort
    unfold reserveRecordGone at hg
    rcases hfind : (coll.find? (fun d =>
        d.id == deploymentId && d.status == DeploymentStatus.configuring)) with _ | d
    · simp only [hfind]; rfl
    · rw [hfind] at hg; simp at hg
  · subst h
    unfold atomicReservePort findOneAndUpdateReservePort
    unfold reserveRecordGone at hg
    unfold reserveWouldCollide at hc
    rcases hfind : (coll.find? (fun d =>
        d.id == deploymentId && d.status == DeploymentStatus.configuring)) with _ | d
    · rw [hfind] at hg; simp at hg
    · simp only [hfind, hc]; rfl
  · subst h
    unfold atomicReservePort findOneAndUpdateReservePort
    unfold reserveRecordGone at hg
    unfold reserveWouldCollide at hc
    rcases hfind : (coll.find? (fun d =>
        d.id == deploymentId && d.status == DeploymentStatus.configuring)) with _ | d
    · rw [hfind] at hg; simp at hg
    · simp only [hfind, hc]; rfl

/-- Closed witness for C3: a successful reservation on a configuring record
clears the in-flight entry and writes the port. -/
theorem c3_reserve_paths_witness :
    atomicReservePort internalPortIndexDecl true
        [{ id := "d1", subdomain := "alice",
           status := DeploymentStatus.configuring }] [20000] "d1" 20000 =
      (ReserveOutcome.result true,
        [{ id := "d1", subdomain := "alice",
           status := DeploymentStatus.configuring, internalPort := some 20000 }],
        []) := by
  have h := (c3_reserve_paths internalPortIndexDecl true
    [{ id := "d1", subdomain := "alice",
       status := DeploymentStatus.configuring }] [20000] "d1" 20000).2.2.2
    rfl (by decide) (by decide)
  exact h.trans (by decide)

/-- First reservation of the duplicate-port scenario. -/
def c1FirstReserve : ReserveOutcome × List DeploymentRecord × List Nat :=
  atomicReservePort internalPortIndexDecl true
    [{ id := "d1", subdomain := "alice", status := DeploymentStatus.configuring },
     { id := "d2", subdomain := "bob", status := DeploymentStatus.configuring }]
    [20000] "d1" 20000

/-- Second reservation of the same port for the other deployment, run against
the collection the first reservation produced. -/
def c1SecondReserve : ReserveOutcome × List DeploymentRecord × List Nat :=
  atomicReservePort internalPortIndexDecl true c1FirstReserve.2.1 [20000] "d2" 20000

/-- The same second reservation under the unique index the spec declares. -/
def c1SpecSecondReserve : ReserveOutcome × List DeploymentRecord × List Nat :=
  atomicReservePort specInternalPortIndexDecl true c1FirstReserve.2.1 [20000] "d2" 20000

/-- Claim C1 (code bug evidence): the schema declares internalPort sparse but
not unique, so reserving the same port for a second configuring deployment
succeeds and both records end with internalPort 20000 — no duplicate-key
error is raised and atomicReservePort returns true, not false.  Under the
unique index the spec declares, the same second write fails as claimed. -/
theorem c1_internal_port_unique_index_missing :
    internalPortIndexDecl.unique = false ∧
    c1FirstReserve.1 = ReserveOutcome.result true ∧
    c1SecondReserve.1 = ReserveOutcome.result true ∧
    c1SecondReserve.2.1.map DeploymentRecord.internalPort =
      [some 20000, some 20000] ∧
    c1SpecSecondReserve.1 = ReserveOutcome.result false := by
  decide

/-! ## The port allocator (src/src/services/PortManager.ts lines 33-196) -/

/-- The external world allocatePort consults: the configured port range, the
runtime's published ports (none models a failing listContainers call) and the
two OS bind probes of isPortTrulyFreeOnHost. -/
structure AllocEnv where
  minPort : Nat
  maxPort : Nat
  dockerPorts : Option (List Nat)
  bindLoopback : Nat → Bool
  bindAnyAddr : Nat → Bool

/-- isPortTrulyFreeOnHost (PortManager.ts 175-196): a loopback bind followed
by an any-address bind; either failure makes the port not free. -/
def isPortTrulyFreeOnHost (env : AllocEnv) (port : Nat) : Bool :=
  env.bindLoopback port && env.bindAnyAddr port

/-- getUsedPortsFromDb (PortManager.ts 124-137): internalPort values of
deployments whose status is not stopped, error or idle. -/
def getUsedPortsFromDb (coll : List DeploymentRecord) : List Nat :=
  (coll.filter (fun d =>
    !(d.status == DeploymentStatus.stopped) && !(d.status == DeploymentStatus.error) &&
    !(d.status == DeploymentStatus.idle) && d.internalPort.isSome)).filterMap
    (fun d => d.internalPort)

/-- getUsedPortsFromDocker (PortManager.ts 143-169): published host ports in
range; when listing containers throws, the error is caught and the empty set
is returned so allocation proceeds on the other evidence sources. -/
def getUsedPortsFromDocker (env : AllocEnv) : List Nat :=
  match env.dockerPorts with
  | none => []
  | some published =>
      published.filter (fun p => decide (env.minPort ≤ p) && decide (p ≤ env.maxPort))

/-- The candidate sweep of allocatePort (PortManager.ts 47-66): skip used
ports, insert the candidate into the in-flight set, probe it with
isPortTrulyFreeOnHost (the free argument), return it on success and remove it
from in-flight on failure. -/
def allocateSweep (free : Nat → Bool) (usedPorts : List Nat) (inFlight : List Nat) :
    List Nat → Option Nat × List Nat
  | [] => (none, inFlight)
  | port :: rest =>
    if usedPorts.contains port then allocateSweep free usedPorts inFlight rest
    else
      let inFlight1 := port :: inFlight
      if free port then (some port, inFlight1)
      else allocateSweep free usedPorts (inFlight1.erase port) rest

/-- The ascending candidate range [minPort, maxPort]. -/
def portRange (env : AllocEnv) : List Nat :=
  List.range' env.minPort (env.maxPort + 1 - env.minPort)

/-- allocatePort (PortManager.ts 33-75): union the three evidence sources,
sweep the range, and throw the exhaustion error when no candidate survives. -/
def allocatePort (env : AllocEnv) (coll : List DeploymentRecord)
    (inFlight : List Nat) : Except String Nat × List Nat :=
  let usedPorts := getUsedPortsFromDb coll ++ inFlight ++ getUsedPortsFromDocker env
  match allocateSweep (isPortTrulyFreeOnHost env) usedPorts inFlight (portRange env) with
  | (some port, inFlight2) => (Except.ok port, inFlight2)
  | (none, inFlight2) => (Except.error "No available ports in range", inFlight2)

/-- The union of the three evidence sources, as allocatePort computes it. -/
def usedPortUnion (env : AllocEnv) (coll : List DeploymentRecord)
    (inFlight : List Nat) : List Nat :=
  getUsedPortsFromDb coll ++ inFlight ++ getUsedPortsFromDocker env

theorem allocateSweep_ok_characterization (free : Nat → Bool) (usedPorts : List Nat)
    (inFlight : List Nat) :
    ∀ (n a : Nat) (port : Nat) (fl : List Nat),
      allocateSweep free usedPorts inFlight (List.range' a n) = (some port, fl) →
      a ≤ port ∧ port < a + n ∧ usedPorts.contains port = false ∧
      free port = true ∧ fl = port :: inFlight ∧
      ∀ q, a ≤ q → q < port → usedPorts.contains q = false →
        free q = false := by
  intro n
  induction n with
  | zero => intro a port fl h; simp [allocateSweep] at h
  | succ m ih =>
    intro a port fl h
    rw [List.range'_succ] at h
    unfold allocateSweep at h
    rcases hused : usedPorts.contains a with _ | _
    · rw [hused] at h
      simp only [Bool.false_eq_true, if_false] at h
      rcases hfree : free a with _ | _
      · rw [hfree] at h
        simp only [Bool.false_eq_true, if_false, List.erase_cons_head] at h
        obtain ⟨h1, h2, h3, h4, h5, h6⟩ := ih (a + 1) port fl h
        refine ⟨by omega, by omega, h3, h4, h5, fun q hq1 hq2 hq3 => ?_⟩
        rcases Nat.eq_or_lt_of_le hq1 with heq | hlt
        · rw [← heq]; exact hfree
        · exact h6 q hlt hq2 hq3
      · rw [hfree] at h
        simp only [if_true] at h
        obtain ⟨h1, h2⟩ := Prod.mk.injEq .. ▸ h
        cases h1; cases h2
        refine ⟨Nat.le_refl a, by omega, hused, hfree, rfl, fun q hq1 hq2 _ => ?_⟩
        omega
    · rw [hused] at h
      simp only [if_true] at h
      obtain ⟨h1, h2, h3, h4, h5, h6⟩ := ih (a + 1) port fl h
      refine ⟨by omega, by omega, h3, h4, h5, fun q hq1 hq2 hq3 => ?_⟩
      rcases Nat.eq_or_lt_of_le hq1 with heq | hlt
      · rw [← heq] at hq3; rw [hused] at hq3; cases hq3
      · exact h6 q hlt hq2 hq3

theorem allocateSweep_none_characterization (free : Nat → Bool) (usedPorts : List Nat)
    (inFlight : List Nat) :
    ∀ (n a : Nat) (fl : List Nat),
      allocateSweep free usedPorts inFlight (List.range' a n) = (none, fl) →
      fl = inFlight ∧
      ∀ q, a ≤ q → q < a + n → usedPorts.contains q = false →
        free q = false := by
  intro n
  induction n with
  | zero =>
    intro a fl h
    simp only [List.range', allocateSweep] at h
    exact ⟨(Prod.mk.injEq .. ▸ h).2.symm, fun q hq1 hq2 _ => by omega⟩
  | succ m ih =>
    intro a fl h
    rw [List.range'_succ] at h
    unfold allocateSweep at h
    rcases hused : usedPorts.contains a with _ | _
    · rw [hused] at h
      simp only [Bool.false_eq_true, if_false] at h
      rcases hfree : free a with _ | _
      · rw [hfree] at h
        simp only [Bool.false_eq_true, if_false, List.erase_cons_head] at h
        obtain ⟨h1, h2⟩ := ih (a + 1) fl h
        refine ⟨h1, fun q hq1 hq2 hq3 => ?_⟩
        rcases Nat.eq_or_lt_of_le hq1 with heq | hlt
        · rw [← heq]; exact hfree
        · exact h2 q hlt (by omega) hq3
      · rw [hfree] at h; simp at h
    · rw [hused] at h
      simp only [if_true] at h
      obtain ⟨h1, h2⟩ := ih (a + 1) fl h
      refine ⟨h1, fun q hq1 hq2 hq3 => ?_⟩
      rcases Nat.eq_or_lt_of_le hq1 with heq | hlt
      · rw [← heq] at hq3; rw [hused] at hq3; cases hq3
      · exact h2 q hlt (by omega) hq3

/-- Claim C6: allocatePort returns the smallest port in [minPort, maxPort]
outside the union of DB-recorded, in-flight and runtime-published ports for
which both binds succeed, keeping it in-flight; a candidate failing a bind is
removed from in-flight and skipped (so a failed sweep leaves in-flight
unchanged); exhaustion fails with the port-allocation-exhausted error; and a
failed runtime listing degrades to the remaining evidence sources. -/
theorem c6_allocate_port (env : AllocEnv) (coll : List DeploymentRecord)
    (inFlight : List Nat) :
    (∀ port fl, allocatePort env coll inFlight = (Except.ok port, fl) →
      env.minPort ≤ port ∧ port ≤ env.maxPort ∧
      (usedPortUnion env coll inFlight).contains port = false ∧
      env.bindLoopback port = true ∧ env.bindAnyAddr port = true ∧
      fl = port :: inFlight ∧
      ∀ q, env.minPort ≤ q → q < port →
        (usedPortUnion env coll inFlight).contains q = false →
        isPortTrulyFreeOnHost env q = false) ∧
    (∀ msg fl, allocatePort env coll inFlight = (Except.error msg, fl) →
      msg = "No available ports in range" ∧ fl = inFlight ∧
      ∀ q, env.minPort ≤ q → q ≤ env.maxPort →
        (usedPortUnion env coll inFlight).contains q = false →
        isPortTrulyFreeOnHost env q = false) ∧
    (env.dockerPorts = none →
      allocatePort env coll inFlight =
        allocatePort { env with dockerPorts := some [] } coll inFlight) := by
  refine ⟨?_, ?_, ?_⟩
  · intro port fl h
    simp only [allocatePort] at h
    rcases hsweep : allocateSweep (isPortTrulyFreeOnHost env)
        (getUsedPortsFromDb coll ++ inFlight ++ getUsedPortsFromDocker env)
        inFlight (portRange env) with ⟨res, fl2⟩
    rw [hsweep] at h
    cases res with
    | none => simp at h
    | some p =>
      simp only [Except.ok.injEq, Prod.mk.injEq] at h
      obtain ⟨hp, hfl⟩ := h
      subst hp; subst hfl
      unfold portRange at hsweep
      obtain ⟨h1, h2, h3, h4, h5, h6⟩ :=
        allocateSweep_ok_characterization (isPortTrulyFreeOnHost env) _ inFlight _ env.minPort _ _ hsweep
      have hfree := h4
      unfold isPortTrulyFreeOnHost at hfree
      refine ⟨h1, by omega, h3, (Bool.and_eq_true .. ▸ hfree).1,
        (Bool.and_eq_true .. ▸ hfree).2, h5, h6⟩
  · intro msg fl h
    simp only [allocatePort] at h
    rcases hsweep : allocateSweep (isPortTrulyFreeOnHost env)
        (getUsedPortsFromDb coll ++ inFlight ++ getUsedPortsFromDocker env)
        inFlight (portRange env) with ⟨res, fl2⟩
    rw [hsweep] at h
    cases res with
    | some p => simp at h
    | none =>
      simp only [Except.error.injEq, Prod.mk.injEq] at h
      obtain ⟨hm, hfl⟩ := h
      subst hm; subst hfl
      unfold portRange at hsweep
      obtain ⟨h1, h2⟩ :=
        allocateSweep_none_characterization (isPortTrulyFreeOnHost env) _ inFlight _ env.minPort _ hsweep
      exact ⟨rfl, h1, fun q hq1 hq2 hq3 => h2 q hq1 (by omega) hq3⟩
  · intro hdocker
    obtain ⟨mn, mx, dp, bl, ba⟩ := env
    dsimp only at hdocker
    subst hdocker
    rfl

/-- The concrete allocator world of the C6 witness: range 10-12, port 10
published by the runtime, port 11 failing its loopback bind. -/
def c6WitnessEnv : AllocEnv :=
  { minPort := 10, maxPort := 12, dockerPorts := some [10],
    bindLoopback := fun p => p != 11, bindAnyAddr := fun _ => true }

/-- Closed witness for C6: in the world above allocatePort returns 12 with 12
kept in-flight, and 12 satisfies the characterization. -/
theorem c6_allocate_port_witness :
    c6WitnessEnv.minPort ≤ 12 ∧ 12 ≤ c6WitnessEnv.maxPort ∧
    (usedPortUnion c6WitnessEnv [] []).contains 12 = false ∧
    c6WitnessEnv.bindLoopback 12 = true ∧ c6WitnessEnv.bindAnyAddr 12 = true := by
  have h := (c6_allocate_port c6WitnessEnv [] []).1 12 [12] (by rfl)
  exact ⟨h.1, h.2.1, h.2.2.1, h.2.2.2.1, h.2.2.2.2.1⟩

/-! ## Container environment and the Node heap hint
(src/unnamed/part_012, second variant, lines 168-363) -/

/-- The decrypted secrets bag passed to the config builder
(IDecryptedSecrets; part_002 77-106).  webUiToken is a plain string (possibly
empty), the keys are optional. -/
structure DecryptedSecrets where
  openaiApiKey : Option String := none
  anthropicApiKey : Option String := none
  googleApiKey : Option String := none
  telegramBotToken : Option String := none
  webUiToken : String := ""
deriving DecidableEq, Repr

/-- computeNodeHeapMb, the current variant (part_012 lines 248-273).
JavaScript arithmetic is exact here: Math.floor(bytes / MiB) is Nat division,
Math.floor(x * 0.75) on a Nat x is x * 3 / 4, and Math.max(0, memMb - 128) is
truncated Nat subtraction. -/
def computeNodeHeapMb (memoryLimitBytes : Nat) : Nat :=
  let memMb := memoryLimitBytes / (1024 * 1024)
  if memMb = 0 then 1536
  else
    let usableMb := memMb - 128
    let heapMb1 := usableMb * 3 / 4
    let heapMb2 := min heapMb1 usableMb
    let heapMb3 := min heapMb2 1536
    let heapMb4 := heapMb3 / 64 * 64
    let heapMb5 := max 256 heapMb4
    min heapMb5 (max 256 usableMb)

/-- buildEnvironmentVariables (part_012 lines 275-301): the five fixed
entries followed by the vendor key entries present in the secrets. -/
def buildEnvironmentVariables (deploymentId : String) (secrets : DecryptedSecrets)
    (memoryLimitBytes : Nat) : List String :=
  let safeToken := if secrets.webUiToken != "" then secrets.webUiToken
    else "fallback-dev-token-xyz"
  let heapMb := computeNodeHeapMb memoryLimitBytes
  let env := ["OPENCLAW_CONFIG_PATH=/config/openclaw.json",
    "DEPLOYMENT_ID=" ++ deploymentId,
    "NODE_ENV=production",
    "OPENCLAW_GATEWAY_TOKEN=" ++ safeToken,
    "NODE_OPTIONS=--max-old-space-size=" ++ toString heapMb]
  let env := env ++ (match secrets.googleApiKey with
    | some k => if k != "" then ["GOOGLE_API_KEY=" ++ k, "GOOGLE_GENAI_API_KEY=" ++ k]
      else []
    | none => [])
  let env := env ++ (match secrets.anthropicApiKey with
    | some k => if k != "" then ["ANTHROPIC_API_KEY=" ++ k] else []
    | none => [])
  let env := env ++ (match secrets.openaiApiKey with
    | some k => if k != "" then ["OPENAI_API_KEY=" ++ k] else []
    | none => [])
  env ++ (match secrets.telegramBotToken with
    | some k => if k != "" then ["TELEGRAM_BOT_TOKEN=" ++ k] else []
    | none => [])

/-- Modelled from the spec: the heap formula of section 4.3 of spec.md, with
memoryBytes/MiB read as the floored megabyte count and the subtraction
truncated at zero. -/
def specHeapFormula (memoryBytes : Nat) : Nat :=
  max 256 (min 1536 ((memoryBytes / (1024 * 1024) - 128) * 3 / 4 / 64 * 64))

/-- The NODE_OPTIONS marker the environment entries are matched against. -/
def nodeOptsMarker : List Char := "NODE_OPTIONS=".data

theorem marker_config_path :
    startsWithChars nodeOptsMarker "OPENCLAW_CONFIG_PATH=/config/openclaw.json".data
      = false := rfl

theorem marker_deployment_id (sfx : String) :
    startsWithChars nodeOptsMarker ("DEPLOYMENT_ID=" ++ sfx).data = false := by
  rw [String.data_append]; rfl

theorem marker_node_env :
    startsWithChars nodeOptsMarker "NODE_ENV=production".data = false := rfl

theorem marker_gateway_token (sfx : String) :
    startsWithChars nodeOptsMarker ("OPENCLAW_GATEWAY_TOKEN=" ++ sfx).data = false := by
  rw [String.data_append]; rfl

theorem marker_node_opts (sfx : String) :
    startsWithChars nodeOptsMarker
      ("NODE_OPTIONS=--max-old-space-size=" ++ sfx).data = true := by
  rw [String.data_append]; rfl

theorem marker_google (sfx : String) :
    startsWithChars nodeOptsMarker ("GOOGLE_API_KEY=" ++ sfx).data = false := by
  rw [String.data_append]; rfl

theorem marker_genai (sfx : String) :
    startsWithChars nodeOptsMarker ("GOOGLE_GENAI_API_KEY=" ++ sfx).data = false := by
  rw [String.data_append]; rfl

theorem marker_anthropic (sfx : String) :
    startsWithChars nodeOptsMarker ("ANTHROPIC_API_KEY=" ++ sfx).data = false := by
  rw [String.data_append]; rfl

theorem marker_openai (sfx : String) :
    startsWithChars nodeOptsMarker ("OPENAI_API_KEY=" ++ sfx).data = false := by
  rw [String.data_append]; rfl

theorem marker_telegram (sfx : String) :
    startsWithChars nodeOptsMarker ("TELEGRAM_BOT_TOKEN=" ++ sfx).data = false := by
  rw [String.data_append]; rfl

theorem countP_base_entries (deploymentId safeToken : String) (heapMb : Nat) :
    List.countP (fun (e : String) => startsWithChars nodeOptsMarker e.data)
      ["OPENCLAW_CONFIG_PATH=/config/openclaw.json",
       "DEPLOYMENT_ID=" ++ deploymentId,
       "NODE_ENV=production",
       "OPENCLAW_GATEWAY_TOKEN=" ++ safeToken,
       "NODE_OPTIONS=--max-old-space-size=" ++ toString heapMb] = 1 := by
  simp only [List.countP_cons, List.countP_nil]
  rw [marker_config_path, marker_deployment_id, marker_node_env,
    marker_gateway_token, marker_node_opts]
  simp

theorem countP_google_entries (g : String) :
    List.countP (fun (e : String) => startsWithChars nodeOptsMarker e.data)
      ["GOOGLE_API_KEY=" ++ g, "GOOGLE_GENAI_API_KEY=" ++ g] = 0 := by
  simp only [List.countP_cons, List.countP_nil]
  rw [marker_google, marker_genai]
  simp

theorem countP_anthropic_entry (k : String) :
    List.countP (fun (e : String) => startsWithChars nodeOptsMarker e.data)
      ["ANTHROPIC_API_KEY=" ++ k] = 0 := by
  simp only [List.countP_cons, List.countP_nil]
  rw [marker_anthropic]
  simp

theorem countP_openai_entry (k : String) :
    List.countP (fun (e : String) => startsWithChars nodeOptsMarker e.data)
      ["OPENAI_API_KEY=" ++ k] = 0 := by
  simp only [List.countP_cons, List.countP_nil]
  rw [marker_openai]
  simp

theorem countP_telegram_entry (k : String) :
    List.countP (fun (e : String) => startsWithChars nodeOptsMarker e.data)
      ["TELEGRAM_BOT_TOKEN=" ++ k] = 0 := by
  simp only [List.countP_cons, List.countP_nil]
  rw [marker_telegram]
  simp

theorem heap_floor_le (u : Nat) : u * 3 / 4 ≤ u := by
  calc u * 3 / 4 ≤ u * 4 / 4 := Nat.div_le_div_right (by omega)
  _ = u := Nat.mul_div_cancel u (by omega)

theorem heap_eq_spec_formula (m : Nat) (h : 1 ≤ m / (1024 * 1024)) :
    computeNodeHeapMb m = specHeapFormula m := by
  unfold computeNodeHeapMb specHeapFormula
  have hne : ¬(m / (1024 * 1024) = 0) := by omega
  simp only [hne, if_false]
  set u := m / (1024 * 1024) - 128 with hu
  have hfl : u * 3 / 4 ≤ u := heap_floor_le u
  rw [Nat.min_eq_left hfl]
  set r := u * 3 / 4 with hr
  have hq : r / 64 * 64 ≤ r := Nat.div_mul_le_self r 64
  by_cases hcap : r ≤ 1536
  · rw [Nat.min_eq_left hcap]
    have h1 : min 1536 (r / 64 * 64) = r / 64 * 64 :=
      Nat.min_eq_right (by omega)
    rw [h1]
    refine Nat.min_eq_left ?_
    have : max 256 (r / 64 * 64) ≤ max 256 r := by omega
    omega
  · rw [Nat.min_eq_right (by omega : (1536 : Nat) ≤ r)]
    have h1536 : (1536 : Nat) / 64 * 64 = 1536 := by norm_num
    rw [h1536]
    have hge : 1536 ≤ r / 64 * 64 := by
      have h24 : 24 ≤ r / 64 := (Nat.le_div_iff_mul_le (by omega)).mpr (by omega)
      omega
    rw [Nat.min_eq_left (by omega : (1536 : Nat) ≤ r / 64 * 64)]
    have hru : r ≤ u := hfl
    omega

theorem heap_le_usable (m : Nat) (h : 1 ≤ m / (1024 * 1024)) :
    computeNodeHeapMb m ≤ max 256 (m / (1024 * 1024) - 128) := by
  unfold computeNodeHeapMb
  have hne : ¬(m / (1024 * 1024) = 0) := by omega
  simp only [hne, if_false]
  exact Nat.min_le_right _ _

/-- Claim C7 counterexample: at memoryBytes = 256 MiB the emitted heap hint is
256 MB while memoryBytes/MiB - 128 = 128, so the hint exceeds the headroom
bound the claim states. -/
theorem c7_heap_counterexample :
    computeNodeHeapMb 268435456 = 256 ∧
    268435456 / (1024 * 1024) - 128 = 128 ∧
    ¬(computeNodeHeapMb 268435456 ≤ 268435456 / (1024 * 1024) - 128) ∧
    ("NODE_OPTIONS=--max-old-space-size=256" ∈
      buildEnvironmentVariables "d1" {} 268435456) := by
  refine ⟨by decide, by decide, by decide, by decide⟩

/-- Claim C7 (amended): the environment always contains exactly one
NODE_OPTIONS entry, carrying the heap hint H; H equals the spec formula
max(256, min(1536, floor(((memMb - 128) * 0.75) / 64) * 64)) whenever the
memory limit is at least one MiB; H = 1536 whenever the floored MiB count is
zero (in particular at memoryBytes = 0); and H never exceeds
max(256, memMb - 128) — the 256 MB floor, not memMb - 128 itself, is the
binding bound for small limits. -/
theorem c7_node_heap_hint (deploymentId : String) (secrets : DecryptedSecrets)
    (memoryLimitBytes : Nat) :
    ((buildEnvironmentVariables deploymentId secrets memoryLimitBytes).countP
      (fun e => startsWithChars nodeOptsMarker e.data) = 1) ∧
    (("NODE_OPTIONS=--max-old-space-size=" ++
        toString (computeNodeHeapMb memoryLimitBytes)) ∈
      buildEnvironmentVariables deploymentId secrets memoryLimitBytes) ∧
    (1 ≤ memoryLimitBytes / (1024 * 1024) →
      computeNodeHeapMb memoryLimitBytes = specHeapFormula memoryLimitBytes) ∧
    (memoryLimitBytes / (1024 * 1024) = 0 →
      computeNodeHeapMb memoryLimitBytes = 1536) ∧
    (1 ≤ memoryLimitBytes / (1024 * 1024) →
      computeNodeHeapMb memoryLimitBytes ≤
        max 256 (memoryLimitBytes / (1024 * 1024) - 128)) := by
  refine ⟨?_, ?_, heap_eq_spec_formula memoryLimitBytes, ?_,
    heap_le_usable memoryLimitBytes⟩
  · unfold buildEnvironmentVariables
    rcases secrets with ⟨ok, ak, gk, tk, wt⟩
    rcases gk with _ | g <;> rcases ak with _ | a <;>
      rcases ok with _ | o <;> rcases tk with _ | t <;>
      (simp only [List.countP_append, countP_base_entries, countP_google_entries,
        countP_anthropic_entry, countP_openai_entry, countP_telegram_entry,
        List.countP_nil, apply_ite (List.countP
          (fun (e : String) => startsWithChars nodeOptsMarker e.data)),
        ite_self])
  · unfold buildEnvironmentVariables
    simp
  · intro h
    unfold computeNodeHeapMb
    simp [h]

/-- Closed witness for C7: at the default 768 MiB limit the emitted hint is
448 MB, matching the spec formula, and below the 512 MB headroom bound. -/
theorem c7_node_heap_hint_witness :
    computeNodeHeapMb 805306368 = specHeapFormula 805306368 ∧
    computeNodeHeapMb 805306368 ≤ max 256 (805306368 / (1024 * 1024) - 128) := by
  have h := c7_node_heap_hint "d1" {} 805306368
  exact ⟨h.2.2.1 (by decide), h.2.2.2.2 (by decide)⟩

/-! ## Reverse proxy subdomain extraction and dispatch
(src/src/middleware/proxy.ts lines 171-297) -/

/-- Model of JavaScript String.prototype.split with a single-character
separator: "".split(s) = [""], separators at the edges produce empty
fragments. -/
def splitOnChar (sep : Char) : List Char → List (List Char)
  | [] => [[]]
  | c :: rest =>
    let r := splitOnChar sep rest
    if c == sep then [] :: r
    else match r with
      | h :: t => (c :: h) :: t
      | [] => [[c]]

/-- Model of JavaScript String.prototype.toLowerCase on ASCII strings:
lowercase character by character. -/
def toLowerStr (s : String) : String :=
  String.mk (s.data.map Char.toLower)

/-- extractSubdomain (proxy.ts 284-292): take the host before the first
colon, split on dots; three or more labels yield the lowercased first label,
exactly two labels with second label localhost likewise, anything else
yields none. -/
def extractSubdomain (host : String) : Option String :=
  let cleanHost := (splitOnChar ':' host.data).headD []
  let parts := splitOnChar '.' cleanHost
  if 3 ≤ parts.length then some (toLowerStr (String.mk (parts.headD [])))
  else if parts.length == 2 && (parts.getD 1 [] == "localhost".data) then
    some (toLowerStr (String.mk (parts.headD [])))
  else none

/-- isMainDomain (proxy.ts 294-297). -/
def isMainDomain (subdomain : String) : Bool :=
  ["www", "api", "app", "admin", "dashboard", "auth"].contains (toLowerStr subdomain)

/-- The dispatch decision of the HTTP middleware. -/
inductive HttpRoute where
  | next
  | handle (subdomain : String)
deriving DecidableEq, Repr

/-- The dispatch prefix of ProxyManager.middleware (proxy.ts 176-186): defer
/api paths, defer absent or reserved subdomains, otherwise handle the tenant
subdomain. -/
def middlewareRoute (originalUrl host : String) : HttpRoute :=
  if startsWithChars "/api".data originalUrl.data then HttpRoute.next
  else match extractSubdomain host with
    | none => HttpRoute.next
    | some s => if isMainDomain s then HttpRoute.next else HttpRoute.handle s

/-- The dispatch decision of the WebSocket upgrade handler. -/
inductive UpgradeRoute where
  | destroy
  | handle (subdomain : String)
deriving DecidableEq, Repr

/-- The dispatch prefix of ProxyManager.handleUpgrade (proxy.ts 246-254):
destroy the socket on absent or reserved subdomains. -/
def handleUpgradeRoute (host : String) : UpgradeRoute :=
  match extractSubdomain host with
  | none => UpgradeRoute.destroy
  | some s => if isMainDomain s then UpgradeRoute.destroy else UpgradeRoute.handle s

/-- Modelled from the claim wording of C8: the same extraction but yielding
the first label verbatim, without lowercasing. -/
def claimExtractSubdomain (host : String) : Option String :=
  let cleanHost := (splitOnChar ':' host.data).headD []
  let parts := splitOnChar '.' cleanHost
  if 3 ≤ parts.length then some (String.mk (parts.headD []))
  else if parts.length == 2 && (parts.getD 1 [] == "localhost".data) then
    some (String.mk (parts.headD []))
  else none

/-- Claim C8 counterexample: for Host WWW.example.com the code extracts the
lowercased label www — not the first label WWW the claim names — and, since
the reserved-set test lowercases again, hands the request to the next handler
even though the verbatim first label WWW is not a member of the reserved
set. -/
theorem c8_subdomain_counterexample :
    extractSubdomain "WWW.example.com" = some "www" ∧
    claimExtractSubdomain "WWW.example.com" = some "WWW" ∧
    extractSubdomain "WWW.example.com" ≠ claimExtractSubdomain "WWW.example.com" ∧
    (["www", "api", "app", "admin", "dashboard", "auth"].contains "WWW") = false ∧
    middlewareRoute "/" "WWW.example.com" = HttpRoute.next ∧
    handleUpgradeRoute "WWW.example.com" = UpgradeRoute.destroy := by
  refine ⟨by decide, by decide, by decide, by decide, by decide, by decide⟩

/-- Claim C8 (amended): subdomain extraction strips the port, splits on dots
and yields the LOWERCASED first label for hosts with at least three labels or
exactly two labels ending in localhost, and nothing otherwise; /api paths and
absent or reserved subdomains go to the next handler (HTTP) or destroy the
socket (WebSocket); anything else is handled as a tenant subdomain. -/
theorem c8_subdomain_routing (host originalUrl : String) :
    (extractSubdomain host = (claimExtractSubdomain host).map toLowerStr) ∧
    (∀ s, extractSubdomain host = some s → isMainDomain s = true →
      middlewareRoute originalUrl host = HttpRoute.next ∧
      handleUpgradeRoute host = UpgradeRoute.destroy) ∧
    (startsWithChars "/api".data originalUrl.data = true →
      middlewareRoute originalUrl host = HttpRoute.next) ∧
    (extractSubdomain host = none →
      middlewareRoute originalUrl host = HttpRoute.next ∧
      handleUpgradeRoute host = UpgradeRoute.destroy) ∧
    (∀ s, extractSubdomain host = some s → isMainDomain s = false →
      startsWithChars "/api".data originalUrl.data = false →
      middlewareRoute originalUrl host = HttpRoute.handle s ∧
      handleUpgradeRoute host = UpgradeRoute.handle s) := by
  refine ⟨?_, ?_, ?_, ?_, ?_⟩
  · unfold extractSubdomain claimExtractSubdomain
    dsimp only
    split_ifs <;> simp
  · intro s hs hmain
    constructor
    · unfold middlewareRoute
      rcases happi : startsWithChars "/api".data originalUrl.data with _ | _
      · simp only [happi, Bool.false_eq_true, if_false, hs, hmain, if_true]
      · simp only [happi, if_true]
    · unfold handleUpgradeRoute
      simp only [hs, hmain, if_true]
  · intro happi
    unfold middlewareRoute
    simp only [happi, if_true]
  · intro hs
    unfold middlewareRoute handleUpgradeRoute
    simp only [hs]
    rcases happi : startsWithChars "/api".data originalUrl.data with _ | _ <;> simp [happi]
  · intro s hs hmain happi
    unfold middlewareRoute handleUpgradeRoute
    simp only [hs, hmain, happi, Bool.false_eq_true, if_false]
    constructor <;> first | rfl | trivial

/-- Closed witness for C8: alice.example.com with a non-API path is handled
as tenant alice over HTTP and WebSocket. -/
theorem c8_subdomain_routing_witness :
    middlewareRoute "/chat" "alice.example.com" = HttpRoute.handle "alice" ∧
    handleUpgradeRoute "alice.example.com" = UpgradeRoute.handle "alice" :=
  (c8_subdomain_routing "alice.example.com" "/chat").2.2.2.2 "alice"
    (by decide) (by decide) (by decide)

/-! ## Encryption service (src/src/utils/crypto.ts; format predicate
validation.ts 44-48; parameters config part_014: aes-256-gcm, 12-byte IV,
16-byte tag).  Plaintext and key material are byte lists; strings enter only
at the hex wire format. -/

/-- One hex digit, lowercase (Buffer.toString hex). -/
def hexDigit (n : Nat) : Char :=
  if n < 10 then Char.ofNat (48 + n) else Char.ofNat (87 + n)

/-- Hex encoding of a byte list. -/
def hexChars (bs : List Nat) : List Char :=
  bs.flatMap (fun b => [hexDigit (b / 16), hexDigit (b % 16)])

/-- Value of a hex digit (either case). -/
def hexDigitVal (c : Char) : Nat :=
  if 97 ≤ c.toNat then c.toNat - 87
  else if 65 ≤ c.toNat then c.toNat - 55
  else c.toNat - 48

/-- Hex decoding (Buffer.from hex): consume digit pairs, drop a trailing odd
digit. -/
def hexPairsToBytes : List Char → List Nat
  | c1 :: c2 :: rest => (hexDigitVal c1 * 16 + hexDigitVal c2) :: hexPairsToBytes rest
  | _ => []

/-- A character of the class [0-9a-fA-F]. -/
def isHexChar (c : Char) : Bool :=
  (48 ≤ c.toNat && c.toNat ≤ 57) || (97 ≤ c.toNat && c.toNat ≤ 102) ||
  (65 ≤ c.toNat && c.toNat ≤ 70)

/-- CryptoService.isValidHex (crypto.ts 157-159): the starred hex regex, which
accepts the empty token. -/
def isValidHexToken (s : List Char) : Bool :=
  s.all isHexChar

/-- isEncryptedFormat (validation.ts 44-48): exactly three colon-separated
tokens, each matching the PLUS hex regex — so each token must be nonempty. -/
def isEncryptedFormat (value : String) : Bool :=
  let parts := splitOnChar ':' value.data
  parts.length == 3 && parts.all (fun p => !(p.isEmpty) && p.all isHexChar)

/-- Modelled from the spec: the aes-256-gcm primitive of node crypto (an
external collaborator per spec sections 1 and 6.3): a counter-mode keystream
cipher — ciphertext is the plaintext XOR a key/IV keystream, so it has the
plaintext's length — plus an authentication tag over the ciphertext;
decryption verifies the tag first and rejects with the library's
authentication-failure message. -/
structure GcmModel where
  stream : List Nat → List Nat → Nat → Nat
  tagOf : List Nat → List Nat → List Nat → List Nat
  authFailMsg : String

/-- Applying the keystream from byte index i. -/
def xorStream (G : GcmModel) (key iv : List Nat) : Nat → List Nat → List Nat
  | _, [] => []
  | i, b :: rest => (b ^^^ G.stream key iv i) :: xorStream G key iv (i + 1) rest

/-- cipher.update + cipher.final + getAuthTag of the modelled primitive. -/
def gcmEncrypt (G : GcmModel) (key iv pt : List Nat) : List Nat × List Nat :=
  let ct := xorStream G key iv 0 pt
  (ct, G.tagOf key iv ct)

/-- decipher with setAuthTag of the modelled primitive: tag mismatch throws
the authentication-failure message. -/
def gcmDecrypt (G : GcmModel) (key iv authTag ct : List Nat) :
    Except String (List Nat) :=
  if G.tagOf key iv ct == authTag then Except.ok (xorStream G key iv 0 ct)
  else Except.error G.authFailMsg

/-- The two error species of the service (part_007 86-102). -/
inductive CryptoError where
  | encryptionError (msg : String)
  | tamperedDataError
deriving DecidableEq, Repr

/-- CryptoService.encrypt (crypto.ts 27-46): cipher under the given random
IV, then join hex(iv) : hex(tag) : hex(ciphertext). -/
def cryptoEncrypt (G : GcmModel) (key iv pt : List Nat) : String :=
  let pair := gcmEncrypt G key iv pt
  String.mk (hexChars iv ++ (':' :: (hexChars pair.2 ++ (':' :: hexChars pair.1))))

/-- CryptoService.decrypt (crypto.ts 48-107): split on colons (anything but
exactly three parts is a format error), validate hex, check the 12-byte IV
and 16-byte tag lengths, decipher, and map an error whose message mentions
"auth tag" or "authentication" to the tampered-data error. -/
def cryptoDecrypt (G : GcmModel) (key : List Nat) (encryptedData : String) :
    Except CryptoError (List Nat) :=
  match splitOnChar ':' encryptedData.data with
  | [ivHex, authTagHex, ciphertext] =>
    if !(isValidHexToken ivHex) || !(isValidHexToken authTagHex) ||
        !(isValidHexToken ciphertext) then
      Except.error (CryptoError.encryptionError "Invalid hex encoding in encrypted data")
    else
      let iv := hexPairsToBytes ivHex
      let authTag := hexPairsToBytes authTagHex
      if iv.length != 12 then
        Except.error (CryptoError.encryptionError "Invalid IV length")
      else if authTag.length != 16 then
        Except.error (CryptoError.encryptionError "Invalid auth tag length")
      else
        match gcmDecrypt G key iv authTag (hexPairsToBytes ciphertext) with
        | Except.ok plaintext => Except.ok plaintext
        | Except.error msg =>
          if containsSubstr msg "auth tag" || containsSubstr msg "authentication" then
            Except.error CryptoError.tamperedDataError
          else
            Except.error (CryptoError.encryptionError ("Failed to decrypt data: " ++ msg))
  | _ => Except.error (CryptoError.encryptionError
      "Invalid encrypted data format. Expected: iv:authTag:ciphertext")

theorem splitOnChar_cons (sep c : Char) (l : List Char) :
    splitOnChar sep (c :: l) =
      if c == sep then [] :: splitOnChar sep l
      else match splitOnChar sep l with
        | h :: t => (c :: h) :: t
        | [] => [[c]] := rfl

theorem splitOnChar_no_sep (sep : Char) (l : List Char)
    (h : l.all (fun c => !(c == sep)) = true) : splitOnChar sep l = [l] := by
  induction l with
  | nil => rfl
  | cons c rest ih =>
    rw [List.all_cons, Bool.and_eq_true] at h
    have hc : (c == sep) = false := by
      rcases hcc : (c == sep) with _ | _
      · rfl
      · rw [hcc] at h; simp at h
    rw [splitOnChar_cons, hc, ih h.2]
    rfl

theorem splitOnChar_token (sep : Char) (a rest : List Char)
    (h : a.all (fun c => !(c == sep)) = true) :
    splitOnChar sep (a ++ sep :: rest) = a :: splitOnChar sep rest := by
  induction a with
  | nil =>
    rw [List.nil_append, splitOnChar_cons, beq_self_eq_true]
    rfl
  | cons c as ih =>
    rw [List.all_cons, Bool.and_eq_true] at h
    have hc : (c == sep) = false := by
      rcases hcc : (c == sep) with _ | _
      · rfl
      · rw [hcc] at h; simp at h
    rw [List.cons_append, splitOnChar_cons, hc, ih h.2]
    rfl

theorem hexDigit_not_colon (n : Nat) (h : n < 16) : (hexDigit n == ':') = false := by
  interval_cases n <;> decide

theorem hexDigit_isHex (n : Nat) (h : n < 16) : isHexChar (hexDigit n) = true := by
  interval_cases n <;> decide

theorem hexDigitVal_hexDigit (n : Nat) (h : n < 16) : hexDigitVal (hexDigit n) = n := by
  interval_cases n <;> decide

theorem hexChars_no_colon (bs : List Nat) (h : ∀ b ∈ bs, b < 256) :
    (hexChars bs).all (fun c => !(c == ':')) = true := by
  induction bs with
  | nil => rfl
  | cons b rest ih =>
    have hb : b < 256 := h b (List.mem_cons_self b rest)
    have h1 : b / 16 < 16 := by omega
    have h2 : b % 16 < 16 := by omega
    unfold hexChars
    rw [List.flatMap_cons, List.all_append]
    refine Bool.and_eq_true .. ▸ ⟨?_, ih (fun x hx => h x (List.mem_cons_of_mem b hx))⟩
    simp [List.all_cons, hexDigit_not_colon _ h1, hexDigit_not_colon _ h2]

theorem hexChars_all_hex (bs : List Nat) (h : ∀ b ∈ bs, b < 256) :
    isValidHexToken (hexChars bs) = true := by
  induction bs with
  | nil => rfl
  | cons b rest ih =>
    have hb : b < 256 := h b (List.mem_cons_self b rest)
    have h1 : b / 16 < 16 := by omega
    have h2 : b % 16 < 16 := by omega
    unfold hexChars isValidHexToken
    rw [List.flatMap_cons, List.all_append]
    refine Bool.and_eq_true .. ▸ ⟨?_, ih (fun x hx => h x (List.mem_cons_of_mem b hx))⟩
    simp [List.all_cons, hexDigit_isHex _ h1, hexDigit_isHex _ h2]

theorem hexChars_roundtrip (bs : List Nat) (h : ∀ b ∈ bs, b < 256) :
    hexPairsToBytes (hexChars bs) = bs := by
  induction bs with
  | nil => rfl
  | cons b rest ih =>
    have hb : b < 256 := h b (List.mem_cons_self b rest)
    have h1 : b / 16 < 16 := by omega
    have h2 : b % 16 < 16 := by omega
    unfold hexChars
    rw [List.flatMap_cons]
    show hexPairsToBytes (hexDigit (b / 16) :: hexDigit (b % 16) :: hexChars rest) = _
    unfold hexPairsToBytes
    rw [hexDigitVal_hexDigit _ h1, hexDigitVal_hexDigit _ h2,
      ih (fun x hx => h x (List.mem_cons_of_mem b hx))]
    congr 1
    omega

theorem xorStream_cons (G : GcmModel) (key iv : List Nat) (i b : Nat)
    (rest : List Nat) :
    xorStream G key iv i (b :: rest) =
      (b ^^^ G.stream key iv i) :: xorStream G key iv (i + 1) rest := rfl

theorem xorStream_involutive (G : GcmModel) (key iv : List Nat) :
    ∀ (l : List Nat) (i : Nat), xorStream G key iv i (xorStream G key iv i l) = l := by
  intro l
  induction l with
  | nil => intro i; rfl
  | cons b rest ih =>
    intro i
    rw [xorStream_cons, xorStream_cons, ih (i + 1), Nat.xor_assoc, Nat.xor_self,
      Nat.xor_zero]

theorem xorStream_length (G : GcmModel) (key iv : List Nat) :
    ∀ (l : List Nat) (i : Nat), (xorStream G key iv i l).length = l.length := by
  intro l
  induction l with
  | nil => intro i; rfl
  | cons b rest ih => intro i; rw [xorStream_cons]; simp [ih (i + 1)]

theorem xorStream_bytes_lt (G : GcmModel) (key iv : List Nat)
    (hs : ∀ j, G.stream key iv j < 256) :
    ∀ (l : List Nat), (∀ b ∈ l, b < 256) →
      ∀ (i : Nat) (b : Nat), b ∈ xorStream G key iv i l → b < 256 := by
  intro l
  induction l with
  | nil => intro _ i b hb; simp [xorStream] at hb
  | cons x rest ih =>
    intro hl i b hb
    rw [xorStream_cons] at hb
    rcases List.mem_cons.mp hb with hb1 | hb2
    · subst hb1
      have hx : x < 2 ^ 8 := by
        have := hl x (List.mem_cons_self x rest); omega
      have hst : G.stream key iv i < 2 ^ 8 := by have := hs i; omega
      have := Nat.xor_lt_two_pow hx hst
      omega
    · exact ih (fun y hy => hl y (List.mem_cons_of_mem x hy)) (i + 1) b hb2

theorem cryptoDecrypt_wire (G : GcmModel) (key iv tag ct : List Nat)
    (hiv : ∀ b ∈ iv, b < 256) (htag : ∀ b ∈ tag, b < 256)
    (hct : ∀ b ∈ ct, b < 256)
    (hivlen : iv.length = 12) (htaglen : tag.length = 16) :
    cryptoDecrypt G key
        (String.mk (hexChars iv ++ (':' :: (hexChars tag ++ (':' :: hexChars ct))))) =
      match gcmDecrypt G key iv tag ct with
      | Except.ok plaintext => Except.ok plaintext
      | Except.error msg =>
        if containsSubstr msg "auth tag" || containsSubstr msg "authentication" then
          Except.error CryptoError.tamperedDataError
        else
          Except.error (CryptoError.encryptionError ("Failed to decrypt data: " ++ msg)) := by
  have hsplit : splitOnChar ':'
      (String.mk (hexChars iv ++ (':' :: (hexChars tag ++ (':' :: hexChars ct))))).data =
      [hexChars iv, hexChars tag, hexChars ct] := by
    show splitOnChar ':' (hexChars iv ++ (':' :: (hexChars tag ++ (':' :: hexChars ct)))) =
      [hexChars iv, hexChars tag, hexChars ct]
    rw [splitOnChar_token ':' _ _ (hexChars_no_colon iv hiv),
      splitOnChar_token ':' _ _ (hexChars_no_colon tag htag),
      splitOnChar_no_sep ':' _ (hexChars_no_colon ct hct)]
  unfold cryptoDecrypt
  simp only [hsplit]
  simp [hexChars_all_hex iv hiv, hexChars_all_hex tag htag, hexChars_all_hex ct hct,
    hexChars_roundtrip iv hiv, hexChars_roundtrip tag htag, hexChars_roundtrip ct hct,
    hivlen, htaglen]

/-- Claim C9 (amended): for every plaintext the round trip
decrypt(encrypt(x)) = x holds; the wire form is hex(iv):hex(tag):hex(ct) and
the encrypted-format predicate accepts it for every NONEMPTY plaintext (the
empty plaintext yields an empty third token, which the predicate rejects);
and replacing the ciphertext token by any hex token decoding to different
bytes fails with the tampered-data error, provided the primitive reports the
tag mismatch (tag differs on the altered bytes and its message names the
authentication tag). -/
theorem c9_encryption_round_trip (G : GcmModel) (key iv pt : List Nat)
    (hivlen : iv.length = 12)
    (hivb : ∀ b ∈ iv, b < 256)
    (hptb : ∀ b ∈ pt, b < 256)
    (hstream : ∀ j, G.stream key iv j < 256)
    (htaglen : ∀ ct, (G.tagOf key iv ct).length = 16)
    (htagb : ∀ ct b, b ∈ G.tagOf key iv ct → b < 256) :
    cryptoDecrypt G key (cryptoEncrypt G key iv pt) = Except.ok pt ∧
    (pt ≠ [] → isEncryptedFormat (cryptoEncrypt G key iv pt) = true) ∧
    (∀ ct2, (∀ b ∈ ct2, b < 256) →
      G.tagOf key iv ct2 ≠ G.tagOf key iv (xorStream G key iv 0 pt) →
      containsSubstr G.authFailMsg "authentication" = true →
      cryptoDecrypt G key (String.mk (hexChars iv ++ (':' ::
          (hexChars (G.tagOf key iv (xorStream G key iv 0 pt)) ++ (':' :: hexChars ct2))))) =
        Except.error CryptoError.tamperedDataError) := by
  have hctb : ∀ b ∈ xorStream G key iv 0 pt, b < 256 :=
    fun b hb => xorStream_bytes_lt G key iv hstream pt hptb 0 b hb
  have htb : ∀ b ∈ G.tagOf key iv (xorStream G key iv 0 pt), b < 256 :=
    fun b hb => htagb _ b hb
  refine ⟨?_, ?_, ?_⟩
  · have hwire : cryptoEncrypt G key iv pt =
        String.mk (hexChars iv ++ (':' ::
          (hexChars (G.tagOf key iv (xorStream G key iv 0 pt)) ++ (':' ::
          hexChars (xorStream G key iv 0 pt))))) := rfl
    rw [hwire, cryptoDecrypt_wire G key iv _ _ hivb htb hctb hivlen (htaglen _)]
    unfold gcmDecrypt
    rw [beq_self_eq_true]
    simp [xorStream_involutive]
  · intro hne
    have hsplit : splitOnChar ':' (cryptoEncrypt G key iv pt).data =
        [hexChars iv, hexChars (G.tagOf key iv (xorStream G key iv 0 pt)),
          hexChars (xorStream G key iv 0 pt)] := by
      show splitOnChar ':' (hexChars iv ++ (':' ::
        (hexChars (G.tagOf key iv (xorStream G key iv 0 pt)) ++ (':' ::
          hexChars (xorStream G key iv 0 pt))))) =
        [hexChars iv, hexChars (G.tagOf key iv (xorStream G key iv 0 pt)),
          hexChars (xorStream G key iv 0 pt)]
      rw [splitOnChar_token ':' _ _ (hexChars_no_colon iv hivb),
        splitOnChar_token ':' _ _ (hexChars_no_colon _ htb),
        splitOnChar_no_sep ':' _ (hexChars_no_colon _ hctb)]
    unfold isEncryptedFormat
    rw [hsplit]
    have hhex : ∀ (bs : List Nat), (∀ b ∈ bs, b < 256) →
        (hexChars bs).all isHexChar = true := fun bs h => hexChars_all_hex bs h
    have hlen : ∀ (bs : List Nat), bs ≠ [] → (hexChars bs).isEmpty = false := by
      intro bs hbs
      cases bs with
      | nil => cases hbs rfl
      | cons b rest => rfl
    have hivne : iv ≠ [] := by intro hd; rw [hd] at hivlen; simp at hivlen
    have htagne : G.tagOf key iv (xorStream G key iv 0 pt) ≠ [] := by
      intro hd
      have := htaglen (xorStream G key iv 0 pt)
      rw [hd] at this; simp at this
    have hctne : xorStream G key iv 0 pt ≠ [] := by
      intro hd
      have := xorStream_length G key iv pt 0
      rw [hd] at this
      cases pt with
      | nil => cases hne rfl
      | cons a l => simp at this
    simp [List.all_cons, hhex iv hivb, hhex _ htb, hhex _ hctb,
      hlen iv hivne, hlen _ htagne, hlen _ hctne]
  · intro ct2 hct2 htagne hmsg
    rw [cryptoDecrypt_wire G key iv _ _ hivb htb hct2 hivlen (htaglen _)]
    unfold gcmDecrypt
    have hb : (G.tagOf key iv ct2 ==
        G.tagOf key iv (xorStream G key iv 0 pt)) = false := by
      rw [beq_eq_false_iff_ne]; exact htagne
    rw [hb]
    simp [hmsg]

theorem foldl_mod_lt (ct : List Nat) (init : Nat) (h : init < 256) :
    List.foldl (fun acc b => (acc * 31 + b) % 256) init ct < 256 := by
  induction ct generalizing init with
  | nil => simpa
  | cons x rest ih => exact ih _ (Nat.mod_lt _ (by norm_num))

/-- A concrete instance of the modelled primitive used for closed
evaluations: a quadratic keystream and a fold-based 16-byte tag whose failure
message names the authentication tag. -/
def toyGcm : GcmModel :=
  { stream := fun _ _ i => (i * 7 + 3) % 256,
    tagOf := fun _ _ ct => (List.range 16).map (fun i =>
      ct.foldl (fun acc b => (acc * 31 + b) % 256) (i + 1)),
    authFailMsg := "authentication tag mismatch" }

/-- A 12-byte IV for the closed evaluations. -/
def c9IvTwelve : List Nat := List.range 12

/-- Claim C9 counterexample: encrypting the EMPTY plaintext round-trips but
produces a wire string whose third token is empty, so the encrypted-format
predicate rejects the output of encrypt. -/
theorem c9_empty_plaintext_counterexample :
    cryptoDecrypt toyGcm [] (cryptoEncrypt toyGcm [] c9IvTwelve []) =
      Except.ok [] ∧
    isEncryptedFormat (cryptoEncrypt toyGcm [] c9IvTwelve []) = false := by
  refine ⟨by rfl, by decide⟩

/-- Closed witness for C9: the round trip on plaintext bytes [104, 105] and
the tampered-ciphertext rejection at a concrete flipped byte. -/
theorem c9_encryption_round_trip_witness :
    cryptoDecrypt toyGcm [] (cryptoEncrypt toyGcm [] c9IvTwelve [104, 105]) =
      Except.ok [104, 105] := by
  have h := c9_encryption_round_trip toyGcm [] c9IvTwelve [104, 105]
    (by decide) (by decide) (by decide)
    (fun j => Nat.mod_lt _ (show 0 < 256 by norm_num))
    (fun ct => by simp [toyGcm])
    (fun ct b hb => by
      simp only [toyGcm, List.mem_map] at hb
      obtain ⟨i, hi, hval⟩ := hb
      rw [← hval]
      refine foldl_mod_lt ct (i + 1) ?_
      have := List.mem_range.mp hi
      omega)
  exact h.1

/-! ## Auto-wake coordinator (src/src/middleware/proxy.ts lines 102-165) -/

/-- One findBySubdomain observation inside the wake poll loop. -/
inductive PollResult where
  | missing
  | found (status : DeploymentStatus) (hasPort : Bool)
  | dbError (msg : String)
deriving DecidableEq, Repr

/-- The external world doWakeDeployment interacts with: the initial lookup
(which may throw or find nothing), the decrypt and spawn outcomes, and the
successive poll observations until the 60-second deadline (the list end). -/
structure WakeWorld where
  lookupThrows : Option String
  record : Option DeploymentStatus
  decryptThrows : Option String
  spawnThrows : Option String
  polls : List PollResult
deriving DecidableEq, Repr

/-- The poll loop of doWakeDeployment (proxy.ts 139-153): healthy with a port
returns true, error returns false, anything else polls again; the deadline
(end of the observation list) returns false; a throwing poll propagates. -/
def wakePollLoop : List PollResult → Except String Bool
  | [] => Except.ok false
  | PollResult.dbError msg :: _ => Except.error msg
  | PollResult.missing :: rest => wakePollLoop rest
  | PollResult.found st hasPort :: rest =>
    if st == DeploymentStatus.healthy && hasPort then Except.ok true
    else if st == DeploymentStatus.error then Except.ok false
    else wakePollLoop rest

/-- The body of doWakeDeployment before its catch (proxy.ts 118-156): lookup,
refuse any status other than stopped and error, decrypt, spawn, poll. -/
def doWakeDeploymentInner (w : WakeWorld) : Except String Bool :=
  match w.lookupThrows with
  | some msg => Except.error msg
  | none =>
    match w.record with
    | none => Except.ok false
    | some status =>
      if !(status == DeploymentStatus.stopped) &&
          !(status == DeploymentStatus.error) then
        Except.ok false
      else
        match w.decryptThrows with
        | some msg => Except.error msg
        | none =>
          match w.spawnThrows with
          | some msg => Except.error msg
          | none => wakePollLoop w.polls

/-- doWakeDeployment (proxy.ts 117-161): the whole body sits in a try/catch
whose catch logs and returns false, so the caller always receives a plain
Boolean. -/
def doWakeDeployment (w : WakeWorld) : Bool :=
  match doWakeDeploymentInner w with
  | Except.ok b => b
  | Except.error _ => false

/-- wakeDeployment (proxy.ts 102-115) for one subdomain: a joiner finds the
stored promise and awaits it (receiving the shared outcome; entry removal is
the owner's finally); the owner stores the promise, awaits it, and the
finally removes the entry on every path.  The pair is (result, map entry
after this caller completes). -/
def wakeDeployment (inProgress : Option Bool) (w : WakeWorld) :
    Bool × Option Bool :=
  match inProgress with
  | some shared => (shared, some shared)
  | none => (doWakeDeployment w, none)

/-- Claim C10: wakeDeployment is total over its Boolean result — every
internal exception of the body (lookup, decrypt, spawn or poll) yields false,
as does a deployment found in a state other than stopped/error; every
concurrent caller joining an in-flight wake receives the stored shared
outcome whatever its own world looks like; and the owner's wake-in-progress
entry is removed on every path, allowing a later request to start fresh. -/
theorem c10_wake_deployment (w : WakeWorld) :
    (∀ msg, doWakeDeploymentInner w = Except.error msg →
      doWakeDeployment w = false) ∧
    (∀ status, w.lookupThrows = none → w.record = some status →
      (!(status == DeploymentStatus.stopped) &&
        !(status == DeploymentStatus.error)) = true →
      doWakeDeployment w = false) ∧
    (∀ msg, w.lookupThrows = none →
      (∃ status, w.record = some status ∧
        (status = DeploymentStatus.stopped ∨ status = DeploymentStatus.error)) →
      w.decryptThrows = none → w.spawnThrows = some msg →
      doWakeDeployment w = false) ∧
    (wakeDeployment none w).2 = none ∧
    (∀ shared : Bool, wakeDeployment (some shared) w = (shared, some shared)) := by
  refine ⟨?_, ?_, ?_, rfl, fun shared => rfl⟩
  · intro msg h
    simp [doWakeDeployment, h]
  · intro status hlk hrec hst
    simp [doWakeDeployment, doWakeDeploymentInner, hlk, hrec, hst]
  · intro msg hlk hrec hdec hspawn
    obtain ⟨status, hrec, hse⟩ := hrec
    have hguard : (!(status == DeploymentStatus.stopped) &&
        !(status == DeploymentStatus.error)) = false := by
      rcases hse with h | h <;> subst h <;> rfl
    simp [doWakeDeployment, doWakeDeploymentInner, hlk, hrec, hguard, hdec, hspawn]

/-- Closed witness for C10: a spawn failure during a wake of a stopped
deployment yields false, and the owner clears the map entry. -/
theorem c10_wake_deployment_witness :
    doWakeDeployment
      { lookupThrows := none, record := some DeploymentStatus.stopped,
        decryptThrows := none, spawnThrows := some "Failed to pull image",
        polls := [] } = false ∧
    (wakeDeployment none
      { lookupThrows := none, record := some DeploymentStatus.stopped,
        decryptThrows := none, spawnThrows := some "Failed to pull image",
        polls := [] }).2 = none := by
  refine ⟨?_, ?_⟩
  · exact (c10_wake_deployment _).2.2.1 "Failed to pull image" rfl
      ⟨DeploymentStatus.stopped, rfl, Or.inl rfl⟩ rfl rfl
  · exact (c10_wake_deployment _).2.2.2.1

/-! ## The orchestrator spawn flow
(spawnAgent and its helpers, src/src/services/PortManager.ts lines 431-621;
container lifecycle src/unnamed/part_010; model validation
src/src/utils/validation.ts 96-130) -/

/-- The container name prefix (config part_014 line 425, default). -/
def CONTAINER_PREFIX : String := "proxyclaw-agent-"

/-- configBuilder.getContainerName (part_012 337-339). -/
def getContainerName (deploymentId : String) : String :=
  CONTAINER_PREFIX ++ deploymentId

/-- A runtime container: docker id plus assigned name. -/
structure Container where
  id : String
  name : String
deriving DecidableEq, Repr

/-- removeContainer(key, force): docker accepts the id or the name. -/
def removeContainerByKey (runtime : List Container) (key : String) : List Container :=
  runtime.filter (fun c => !(c.id == key) && !(c.name == key))

/-- The shared mutable world of a spawn: the deployment collection, the
runtime's containers, and the allocator's in-flight set. -/
structure SpawnState where
  db : List DeploymentRecord
  runtime : List Container
  inFlight : List Nat
deriving Repr

/-- document.save(): replace the persisted record carrying the same id. -/
def saveDoc (db : List DeploymentRecord) (doc : DeploymentRecord) :
    List DeploymentRecord :=
  db.map (fun e => if e.id == doc.id then doc else e)

/-- MODEL_MAPPINGS (constants.ts 143-148). -/
def MODEL_MAPPINGS (m : String) : Option String :=
  if m == "google/gemini-1.5-flash" then some "google/gemini-3-pro-preview"
  else if m == "google/gemini-1.5-pro" then some "google/gemini-3-pro-preview"
  else if m == "google/gemini-2.0-flash-exp" then some "google/gemini-3-pro-preview"
  else if m == "google/gemini-flash" then some "google/gemini-3-pro-preview"
  else none

/-- validateAndNormalizeModel (validation.ts 96-130): map deprecated names,
auto-select by available key, and reject vendor prefixes without a key. -/
def validateAndNormalizeModel (model : Option String)
    (secrets : DecryptedSecrets) : Except String String :=
  let normalizedModel := match model with
    | some m => match MODEL_MAPPINGS m with
      | some mapped => some mapped
      | none => some m
    | none => none
  if !(truthyStr normalizedModel) then
    if truthyStr secrets.googleApiKey then Except.ok "google/gemini-3-pro-preview"
    else if truthyStr secrets.anthropicApiKey then Except.ok "anthropic/claude-3-5-sonnet"
    else if truthyStr secrets.openaiApiKey then Except.ok "openai/gpt-4o"
    else Except.error "No model specified and no API keys provided"
  else
    let m := normalizedModel.getD ""
    if startsWithChars "google".data m.data && !(truthyStr secrets.googleApiKey) then
      Except.error "Selected Google model but missing Google API Key"
    else if startsWithChars "anthropic".data m.data &&
        !(truthyStr secrets.anthropicApiKey) then
      Except.error "Selected Anthropic model but missing Anthropic API Key"
    else if startsWithChars "openai".data m.data &&
        !(truthyStr secrets.openaiApiKey) then
      Except.error "Selected OpenAI model but missing OpenAI API Key"
    else Except.ok m

/-- The exceptions spawnAgent can raise, with their messages. -/
inductive SpawnErr where
  | capacityFull (msg : String)
  | stateTransition (currentState targetState : DeploymentStatus)
  | portAllocation (msg : String)
  | validation (msg : String)
  | configGeneration (msg : String)
  | container (msg : String)
deriving DecidableEq, Repr

/-- The printed name of a status (for the state-transition message). -/
def statusName : DeploymentStatus → String
  | DeploymentStatus.idle => "idle"
  | DeploymentStatus.configuring => "configuring"
  | DeploymentStatus.provisioning => "provisioning"
  | DeploymentStatus.starting => "starting"
  | DeploymentStatus.healthy => "healthy"
  | DeploymentStatus.stopped => "stopped"
  | DeploymentStatus.error => "error"
  | DeploymentStatus.restarting => "restarting"

/-- error.message of a spawn exception. -/
def spawnErrMsg : SpawnErr → String
  | SpawnErr.capacityFull m => m
  | SpawnErr.stateTransition f t =>
    "Invalid state transition from " ++ statusName f ++ " to " ++ statusName t
  | SpawnErr.portAllocation m => m
  | SpawnErr.validation m => m
  | SpawnErr.configGeneration m => m
  | SpawnErr.container m => m

/-- The outcome of the force-remove inside the failure cleanup. -/
inductive RemoveOutcome where
  | removed
  | notFound
  | failed (msg : String)
deriving DecidableEq, Repr

/-- The external outcomes a spawn consults, beyond the port allocator world:
the capacity limit, whether the zombie force-remove works, the bind re-check
of the atomic reservation, an optional concurrent overwrite of the DB before
the reservation, the requested model and secrets, the config / image /
create / start outcomes, the fresh container id, the cleanup remove outcome,
and the clock. -/
structure SpawnEnv where
  maxRunningAgents : Nat
  zombieRemoveOk : Bool
  alloc : AllocEnv
  reserveStillFree : Bool
  dbBeforeReserve : Option (List DeploymentRecord)
  model : Option String
  secrets : DecryptedSecrets
  configsOk : Bool
  imageOk : Bool
  createOk : Bool
  startOk : Bool
  newContainerId : String
  cleanupRemove : RemoveOutcome
  now : Nat

/-- getRunningAgentCount (PortManager.ts 436-441). -/
def getRunningAgentCount (db : List DeploymentRecord) : Nat :=
  (db.filter (fun d =>
    (d.status == DeploymentStatus.healthy || d.status == DeploymentStatus.starting ||
     d.status == DeploymentStatus.provisioning || d.status == DeploymentStatus.configuring ||
     d.status == DeploymentStatus.restarting) && d.containerId.isSome)).length

/-- cleanupZombieResources (PortManager.ts 601-606): force-remove any
container carrying the canonical name (errors swallowed by
cleanupZombieContainer, part_010 145-157), then unset containerId and
internalPort on the persisted record only — the in-memory document keeps its
fields. -/
def cleanupZombieResources (env : SpawnEnv) (doc : DeploymentRecord)
    (st : SpawnState) : SpawnState :=
  let containerName := getContainerName doc.id
  let runtime1 :=
    if st.runtime.any (fun c => c.id == containerName || c.name == containerName) then
      if env.zombieRemoveOk then removeContainerByKey st.runtime containerName
      else st.runtime
    else st.runtime
  let db1 := st.db.map (fun e =>
    if e.id == doc.id then { e with internalPort := none, containerId := none } else e)
  { st with runtime := runtime1, db := db1 }

/-- containerManager.remove as called by the failure cleanup (part_010
104-124): stop health checks, force-remove (a not-found error is tolerated,
anything else propagates). -/
def cleanupRemoveContainer (env : SpawnEnv) (cid : String) (st : SpawnState) :
    Except String SpawnState :=
  match env.cleanupRemove with
  | RemoveOutcome.removed =>
    Except.ok { st with runtime := removeContainerByKey st.runtime cid }
  | RemoveOutcome.notFound => Except.ok st
  | RemoveOutcome.failed msg => Except.error msg

/-- stateManager.markAsError (StateManager.ts 143-148): transition to error —
an escape hatch, so it always succeeds — and save. -/
def markAsError (doc : DeploymentRecord) (msg : String) (now : Nat)
    (st : SpawnState) : DeploymentRecord × SpawnState :=
  match stateManagerTransitionTo doc DeploymentStatus.error
      { errorMessage := some msg } now with
  | Except.ok d => (d, { st with db := saveDoc st.db d })
  | Except.error _ => (doc, st)

/-- handleDeploymentFailure (PortManager.ts 608-621): remove the container if
the document records one, release the port if the document records one, mark
the deployment as errored; a cleanup exception is caught and skips the rest. -/
def handleDeploymentFailure (env : SpawnEnv) (doc : DeploymentRecord)
    (st : SpawnState) (errMsg : String) : DeploymentRecord × SpawnState :=
  match doc.containerId with
  | some cid =>
    match cleanupRemoveContainer env cid st with
    | Except.error _ => (doc, st)
    | Except.ok st1 =>
      let st2 := match doc.internalPort with
        | some p => { st1 with inFlight := st1.inFlight.erase p }
        | none => st1
      markAsError doc errMsg env.now st2
  | none =>
    let st2 := match doc.internalPort with
      | some p => { st with inFlight := st.inFlight.erase p }
      | none => st
    markAsError doc errMsg env.now st2

/-- allocatePortForDeployment (PortManager.ts 585-599): allocate, atomically
reserve (against the possibly concurrently-overwritten DB), fall back to an
unconditional update when the reservation reports false, and wrap any
exception as a port-allocation failure. -/
def allocatePortForDeployment (env : SpawnEnv) (doc : DeploymentRecord)
    (st : SpawnState) : Except String Nat × SpawnState :=
  match allocatePort env.alloc st.db st.inFlight with
  | (Except.error msg, fl) =>
    (Except.error ("Failed to allocate port: " ++ msg), { st with inFlight := fl })
  | (Except.ok port, fl) =>
    let dbR := env.dbBeforeReserve.getD st.db
    match atomicReservePort internalPortIndexDecl env.reserveStillFree dbR fl
        doc.id port with
    | (ReserveOutcome.thrown msg, db2, fl2) =>
      (Except.error ("Failed to allocate port: " ++ msg),
        { st with db := db2, inFlight := fl2 })
    | (ReserveOutcome.result true, db2, fl2) =>
      (Except.ok port, { st with db := db2, inFlight := fl2 })
    | (ReserveOutcome.result false, db2, fl2) =>
      let db3 := db2.map (fun e =>
        if e.id == doc.id then { e with internalPort := some port } else e)
      (Except.ok port, { st with db := db3, inFlight := fl2 })

/-- containerManager.createAndStart (part_010 24-55): ensure the image,
create the container under the canonical name, start it.  A container whose
start fails remains in the runtime. -/
def createAndStart (env : SpawnEnv) (doc : DeploymentRecord) (st : SpawnState) :
    Except String String × SpawnState :=
  if !env.imageOk then (Except.error "Failed to pull image", st)
  else if !env.createOk then (Except.error "Failed to create container", st)
  else
    let containerName := getContainerName doc.id
    let st1 := { st with runtime :=
      st.runtime ++ [{ id := env.newContainerId, name := containerName }] }
    if !env.startOk then (Except.error "Failed to start container", st1)
    else (Except.ok env.newContainerId, st1)

/-- spawnAgent (PortManager.ts 447-523): capacity gate, zombie cleanup,
configuring, port, model, configs, provisioning, container, persist ids,
starting; any exception after the gate runs handleDeploymentFailure and is
rethrown.  The health-check callback registration of step 9 has no effect on
this state.  Result: (outcome, final document, final world). -/
def spawnAgent (env : SpawnEnv) (doc0 : DeploymentRecord) (st0 : SpawnState) :
    Except SpawnErr String × DeploymentRecord × SpawnState :=
  if env.maxRunningAgents ≤ getRunningAgentCount st0.db then
    let msg := "Server at capacity. Please try again in a few minutes."
    let r := markAsError doc0 msg env.now st0
    (Except.error (SpawnErr.capacityFull msg), r.1, r.2)
  else
    let st1 := cleanupZombieResources env doc0 st0
    match stateManagerTransitionTo doc0 DeploymentStatus.configuring
        { provisioningStep := some "Allocating resources..." } env.now with
    | Except.error (TransitionError.stateTransitionError f t) =>
      let r := handleDeploymentFailure env doc0 st1
        (spawnErrMsg (SpawnErr.stateTransition f t))
      (Except.error (SpawnErr.stateTransition f t), r.1, r.2)
    | Except.ok docC =>
      let stC := { st1 with db := saveDoc st1.db docC }
      match allocatePortForDeployment env docC stC with
      | (Except.error msg, st3) =>
        let r := handleDeploymentFailure env docC st3 msg
        (Except.error (SpawnErr.portAllocation msg), r.1, r.2)
      | (Except.ok port, st3) =>
        match validateAndNormalizeModel env.model env.secrets with
        | Except.error vmsg =>
          let r := handleDeploymentFailure env docC st3 vmsg
          (Except.error (SpawnErr.validation vmsg), r.1, r.2)
        | Except.ok _normalizedModel =>
          let docG := { docC with provisioningStep := some "Generating configuration..." }
          let stG := { st3 with db := saveDoc st3.db docG }
          if !env.configsOk then
            let msg := "Failed to generate config files"
            let r := handleDeploymentFailure env docG stG msg
            (Except.error (SpawnErr.configGeneration msg), r.1, r.2)
          else
            match stateManagerTransitionTo docG DeploymentStatus.provisioning
                { provisioningStep := some "Pulling image..." } env.now with
            | Except.error (TransitionError.stateTransitionError f t) =>
              let r := handleDeploymentFailure env docG stG
                (spawnErrMsg (SpawnErr.stateTransition f t))
              (Except.error (SpawnErr.stateTransition f t), r.1, r.2)
            | Except.ok docP0 =>
              let docP := { docP0 with provisioningStep := some "Starting container..." }
              let stP := { stG with db := saveDoc stG.db docP }
              match createAndStart env docP stP with
              | (Except.error cmsg, st4) =>
                let r := handleDeploymentFailure env docP st4 cmsg
                (Except.error (SpawnErr.container cmsg), r.1, r.2)
              | (Except.ok containerId, st4) =>
                let docS :=
                  { docP with containerId := some containerId, internalPort := some port }
                let stS := { st4 with db := saveDoc st4.db docS }
                match stateManagerTransitionTo docS DeploymentStatus.starting
                    { provisioningStep := some "Health checking..." } env.now with
                | Except.error (TransitionError.stateTransitionError f t) =>
                  let r := handleDeploymentFailure env docS stS
                    (spawnErrMsg (SpawnErr.stateTransition f t))
                  (Except.error (SpawnErr.stateTransition f t), r.1, r.2)
                | Except.ok docT =>
                  (Except.ok containerId, docT, { stS with db := saveDoc stS.db docT })

theorem transitionRejected_to_error (s : DeploymentStatus) :
    transitionRejected s DeploymentStatus.error = false := by
  cases s <;> rfl

theorem markAsError_spec (doc : DeploymentRecord) (msg : String) (now : Nat)
    (st : SpawnState) :
    (markAsError doc msg now st).1.status = DeploymentStatus.error ∧
    (msg ≠ "" → (markAsError doc msg now st).1.errorMessage = some msg) ∧
    (markAsError doc msg now st).2.inFlight = st.inFlight ∧
    (markAsError doc msg now st).2.runtime = st.runtime := by
  have hrej := transitionRejected_to_error doc.status
  have hh : (DeploymentStatus.error == DeploymentStatus.healthy) = false := rfl
  by_cases hm : msg = ""
  · subst hm
    refine ⟨?_, fun hne => absurd rfl hne, ?_, ?_⟩ <;>
      simp [markAsError, stateManagerTransitionTo, hrej, hh, truthyStr]
  · have htruthy : truthyStr (some msg) = true := by simp [truthyStr, hm]
    refine ⟨?_, fun hne => ?_, ?_, ?_⟩ <;>
      simp [markAsError, stateManagerTransitionTo, hrej, hh, htruthy]

theorem handleDeploymentFailure_fresh (env : SpawnEnv) (doc : DeploymentRecord)
    (st : SpawnState) (msg : String)
    (hc : doc.containerId = none) (hp : doc.internalPort = none) :
    handleDeploymentFailure env doc st msg = markAsError doc msg env.now st := by
  unfold handleDeploymentFailure
  rw [hc, hp]

theorem any_id_map (g : DeploymentRecord → DeploymentRecord)
    (hg : ∀ d, (g d).id = d.id) (db : List DeploymentRecord) (i : String) :
    ((db.map g).any (fun d => d.id == i)) = (db.any (fun d => d.id == i)) := by
  induction db with
  | nil => rfl
  | cons d rest ih => simp only [List.map_cons, List.any_cons, hg d, ih]

theorem cleanupZombie_inflight (env : SpawnEnv) (doc : DeploymentRecord)
    (st : SpawnState) : (cleanupZombieResources env doc st).inFlight = st.inFlight := rfl

theorem cleanupZombie_any_id (env : SpawnEnv) (doc : DeploymentRecord)
    (st : SpawnState) (i : String) :
    ((cleanupZombieResources env doc st).db.any (fun d => d.id == i)) =
      (st.db.any (fun d => d.id == i)) := by
  unfold cleanupZombieResources
  refine any_id_map _ (fun d => ?_) st.db i
  by_cases hd : (d.id == doc.id) = true <;> simp [hd]

theorem find_configuring_saveDoc (doc : DeploymentRecord)
    (hst : doc.status = DeploymentStatus.configuring) :
    ∀ (db : List DeploymentRecord), db.any (fun d => d.id == doc.id) = true →
      reserveRecordGone (saveDoc db doc) doc.id = false := by
  intro db
  induction db with
  | nil => intro hmem; simp at hmem
  | cons d rest ih =>
    intro hmem
    unfold reserveRecordGone saveDoc at ih ⊢
    rw [List.map_cons]
    rcases hd : (d.id == doc.id) with _ | _
    · rw [List.any_cons, hd, Bool.false_or] at hmem
      rw [if_neg (by simp [hd]), List.find?_cons, hd]
      simpa using ih hmem
    · rw [if_pos (by simp [hd]), List.find?_cons]
      simp [hst]

theorem atomicReservePort_inflight_of_found (decl : FieldIndexDecl)
    (stillFree : Bool) (coll : List DeploymentRecord) (inFlight : List Nat)
    (deploymentId : String) (port : Nat)
    (hfound : reserveRecordGone coll deploymentId = false) :
    (atomicReservePort decl stillFree coll inFlight deploymentId port).2.2 =
      inFlight.erase port := by
  unfold atomicReservePort findOneAndUpdateReservePort
  unfold reserveRecordGone at hfound
  rcases hsf : stillFree with _ | _
  · rfl
  · rcases hfind : coll.find? (fun d =>
        d.id == deploymentId && d.status == DeploymentStatus.configuring) with _ | d
    · rw [hfind] at hfound; simp at hfound
    · simp only [hfind, Bool.not_true, Bool.false_eq_true, if_false]
      rcases hcol : (decl.unique && coll.any (fun e =>
          e.id != deploymentId && e.internalPort == some port)) with _ | _
      · simp [hcol]
      · simp only [hcol, if_true]
        split <;> rfl

theorem allocatePortForDeployment_state (env : SpawnEnv) (doc : DeploymentRecord)
    (st : SpawnState) (hdb : env.dbBeforeReserve = none)
    (hfound : reserveRecordGone st.db doc.id = false) :
    (allocatePortForDeployment env doc st).2.inFlight = st.inFlight ∧
    (allocatePortForDeployment env doc st).2.runtime = st.runtime := by
  unfold allocatePortForDeployment
  rcases halloc : allocatePort env.alloc st.db st.inFlight with ⟨res, fl⟩
  cases res with
  | error msg =>
    have hfl : fl = st.inFlight := by
      simp only [allocatePort] at halloc
      rcases hsweep : allocateSweep (isPortTrulyFreeOnHost env.alloc)
          (getUsedPortsFromDb st.db ++ st.inFlight ++ getUsedPortsFromDocker env.alloc)
          st.inFlight (portRange env.alloc) with ⟨r2, fl2⟩
      rw [hsweep] at halloc
      cases r2 with
      | none =>
        simp only [Prod.mk.injEq] at halloc
        unfold portRange at hsweep
        obtain ⟨h1, _⟩ := allocateSweep_none_characterization
          (isPortTrulyFreeOnHost env.alloc) _ st.inFlight _ env.alloc.minPort _ hsweep
        rw [← halloc.2, h1]
      | some p => simp at halloc
    subst hfl
    simp
  | ok port =>
    have hfl : fl = port :: st.inFlight := by
      simp only [allocatePort] at halloc
      rcases hsweep : allocateSweep (isPortTrulyFreeOnHost env.alloc)
          (getUsedPortsFromDb st.db ++ st.inFlight ++ getUsedPortsFromDocker env.alloc)
          st.inFlight (portRange env.alloc) with ⟨r2, fl2⟩
      rw [hsweep] at halloc
      cases r2 with
      | none => simp at halloc
      | some p =>
        simp only [Prod.mk.injEq, Except.ok.injEq] at halloc
        unfold portRange at hsweep
        obtain ⟨_, _, _, _, h5, _⟩ := allocateSweep_ok_characterization
          (isPortTrulyFreeOnHost env.alloc) _ st.inFlight _ env.alloc.minPort _ _ hsweep
        rw [← halloc.2, h5, halloc.1]
    subst hfl
    rw [hdb]
    have hres := atomicReservePort_inflight_of_found internalPortIndexDecl
      env.reserveStillFree st.db (port :: st.inFlight) doc.id port hfound
    rcases hr : atomicReservePort internalPortIndexDecl env.reserveStillFree st.db
        (port :: st.inFlight) doc.id port with ⟨out, db2, fl2⟩
    rw [hr] at hres
    simp only at hres
    have herase : (port :: st.inFlight).erase port = st.inFlight :=
      List.erase_cons_head port st.inFlight
    cases out with
    | thrown m => simp [hr, hres, herase]
    | result b => cases b <;> simp [hr, hres, herase]

theorem stateManagerTransitionTo_fields (doc : DeploymentRecord)
    (newState : DeploymentStatus) (options : TransitionOptions) (now : Nat)
    (d : DeploymentRecord)
    (h : stateManagerTransitionTo doc newState options now = Except.ok d) :
    d.id = doc.id ∧ d.status = newState ∧ d.containerId = doc.containerId ∧
    d.internalPort = doc.internalPort := by
  simp only [stateManagerTransitionTo] at h
  rcases hrej : transitionRejected doc.status newState with _ | _
  · rw [hrej] at h
    simp only [Bool.false_eq_true, if_false, Except.ok.injEq] at h
    subst h
    rcases h1 : truthyStr options.errorMessage with _ | _ <;>
      rcases h2 : options.provisioningStep with _ | step <;>
      rcases h3 : (newState == DeploymentStatus.healthy) with _ | _ <;>
      simp [h1, h2, h3]
  · rw [hrej] at h; simp at h

theorem createAndStart_inflight (env : SpawnEnv) (doc : DeploymentRecord)
    (st : SpawnState) : (createAndStart env doc st).2.inFlight = st.inFlight := by
  obtain ⟨mra, zro, al, rsf, dbr, mo, se, cok, iok, crok, sok, nid, cr, nw⟩ := env
  cases iok <;> cases crok <;> cases sok <;> rfl

theorem allocatePortForDeployment_after (env : SpawnEnv) (doc : DeploymentRecord)
    (st : SpawnState) (res : Except String Nat) (st3 : SpawnState)
    (heq : allocatePortForDeployment env doc st = (res, st3))
    (hdb : env.dbBeforeReserve = none)
    (hfound : reserveRecordGone st.db doc.id = false) :
    st3.inFlight = st.inFlight := by
  have h := (allocatePortForDeployment_state env doc st hdb hfound).1
  rw [heq] at h
  exact h

/-- The deployment the C2 scenario spawns: a fresh idle record with no
container and no port. -/
def c2InitDoc : DeploymentRecord :=
  { id := "d1", subdomain := "alice", status := DeploymentStatus.idle }

/-- The initial world of the C2 scenario: just that record, an empty runtime,
nothing in flight. -/
def c2InitState : SpawnState :=
  { db := [c2InitDoc], runtime := [], inFlight := [] }

/-- The external outcomes of the C2 scenario: everything succeeds except the
container start (docker created the container, starting it failed). -/
def c2Env : SpawnEnv :=
  { maxRunningAgents := 10, zombieRemoveOk := true,
    alloc := { minPort := 20000, maxPort := 20002, dockerPorts := some [],
               bindLoopback := fun _ => true, bindAnyAddr := fun _ => true },
    reserveStillFree := true, dbBeforeReserve := none,
    model := none, secrets := { googleApiKey := some "g-key" },
    configsOk := true, imageOk := true, createOk := true, startOk := false,
    newContainerId := "cid-1", cleanupRemove := RemoveOutcome.removed,
    now := 7 }

/-- Claim C2 counterexample: when the container start of step 7 fails, the
spawn raises after the configuring transition, yet the failure cleanup leaves
the just-created container (named with the canonical prefix) in the runtime:
handleDeploymentFailure only removes a container recorded on the document,
and containerId is persisted only at step 8, after the start.  This
contradicts the claim that no container with the canonical name remains. -/
theorem c2_spawn_counterexample :
    (spawnAgent c2Env c2InitDoc c2InitState).1 =
      Except.error (SpawnErr.container "Failed to start container") ∧
    (spawnAgent c2Env c2InitDoc c2InitState).2.1.status = DeploymentStatus.error ∧
    ((spawnAgent c2Env c2InitDoc c2InitState).2.2.runtime.any
      (fun c => c.name == getContainerName c2InitDoc.id)) = true := by
  refine ⟨rfl, rfl, rfl⟩

/-- Claim C2, amended: any raise after the configuring transition other than
a state-transition error (the transitions to provisioning and starting of
steps 6 and 9 are always valid from the states the flow reaches, so the only
reachable state-transition raise is step 3 itself) leaves the document in
status error, with the message preserved when non-empty, and the in-flight
set as it was before the spawn; the runtime is NOT restored (see the
counterexample). -/
theorem c2_spawn_failure_cleanup (env : SpawnEnv) (doc0 : DeploymentRecord)
    (st0 : SpawnState) (e : SpawnErr) (docF : DeploymentRecord) (stF : SpawnState)
    (hcid : doc0.containerId = none) (hport : doc0.internalPort = none)
    (hdb : env.dbBeforeReserve = none)
    (hmem : st0.db.any (fun d => d.id == doc0.id) = true)
    (hspawn : spawnAgent env doc0 st0 = (Except.error e, docF, stF))
    (hcap : ∀ m, e ≠ SpawnErr.capacityFull m)
    (htr : ∀ f t, e ≠ SpawnErr.stateTransition f t) :
    docF.status = DeploymentStatus.error ∧
    (spawnErrMsg e ≠ "" → docF.errorMessage = some (spawnErrMsg e)) ∧
    stF.inFlight = st0.inFlight := by
  unfold spawnAgent at hspawn
  split at hspawn
  · simp only [Prod.mk.injEq] at hspawn
    exact absurd (Except.error.inj hspawn.1).symm (hcap _)
  · split at hspawn
    next f t heq1 =>
      simp only [Prod.mk.injEq] at hspawn
      exact absurd (Except.error.inj hspawn.1).symm (htr f t)
    next docC heq1 =>
      obtain ⟨hidC, hstC, hcidC, hportC⟩ :=
        stateManagerTransitionTo_fields doc0 _ _ env.now docC heq1
      have hcidC2 : docC.containerId = none := hcidC.trans hcid
      have hportC2 : docC.internalPort = none := hportC.trans hport
      have hmemC : ((cleanupZombieResources env doc0 st0).db.any
          (fun d => d.id == docC.id)) = true := by
        rw [hidC, cleanupZombie_any_id]
        exact hmem
      have hfoundC := find_configuring_saveDoc docC hstC
        (cleanupZombieResources env doc0 st0).db hmemC
      simp only [] at hspawn
      split at hspawn
      next amsg st3 heqA =>
        simp only [Prod.mk.injEq] at hspawn
        obtain ⟨h1, h2, h3⟩ := hspawn
        have he := Except.error.inj h1
        subst he
        rw [handleDeploymentFailure_fresh env docC _ _ hcidC2 hportC2] at h2 h3
        have hA := allocatePortForDeployment_after env docC _ _ st3 heqA hdb hfoundC
        refine ⟨?_, fun hne => ?_, ?_⟩
        · rw [← h2]; exact (markAsError_spec _ _ _ _).1
        · rw [← h2]; exact (markAsError_spec _ _ _ _).2.1 hne
        · rw [← h3]; exact ((markAsError_spec _ _ _ _).2.2.1).trans hA
      next port st3 heqA =>
        have hA := allocatePortForDeployment_after env docC _ _ st3 heqA hdb hfoundC
        split at hspawn
        next scrV vmsg heqV =>
          simp only [Prod.mk.injEq] at hspawn
          obtain ⟨h1, h2, h3⟩ := hspawn
          have he := Except.error.inj h1
          subst he
          rw [handleDeploymentFailure_fresh env docC _ _ hcidC2 hportC2] at h2 h3
          refine ⟨?_, fun hne => ?_, ?_⟩
          · rw [← h2]; exact (markAsError_spec _ _ _ _).1
          · rw [← h2]; exact (markAsError_spec _ _ _ _).2.1 hne
          · rw [← h3]; exact ((markAsError_spec _ _ _ _).2.2.1).trans hA
        next scrV nm heqV =>
          split at hspawn
          next hcfg =>
            have hcidG : ({ docC with provisioningStep := some "Generating configuration..." } : DeploymentRecord).containerId = none := hcidC2
            have hportG : ({ docC with provisioningStep := some "Generating configuration..." } : DeploymentRecord).internalPort = none := hportC2
            simp only [Prod.mk.injEq] at hspawn
            obtain ⟨h1, h2, h3⟩ := hspawn
            have he := Except.error.inj h1
            subst he
            rw [handleDeploymentFailure_fresh env _ _ _ hcidG hportG] at h2 h3
            refine ⟨?_, fun hne => ?_, ?_⟩
            · rw [← h2]; exact (markAsError_spec _ _ _ _).1
            · rw [← h2]; exact (markAsError_spec _ _ _ _).2.1 hne
            · rw [← h3]; exact ((markAsError_spec _ _ _ _).2.2.1).trans hA
          next hcfg =>
            split at hspawn
            next f t heqP =>
              simp only [Prod.mk.injEq] at hspawn
              exact absurd (Except.error.inj hspawn.1).symm (htr f t)
            next docP0 heqP =>
              obtain ⟨hidP, hstP, hcidP, hportP⟩ :=
                stateManagerTransitionTo_fields _ _ _ env.now docP0 heqP
              have hcidP2 : ({ docP0 with provisioningStep := some "Starting container..." } : DeploymentRecord).containerId = none := hcidP.trans hcidC2
              have hportP2 : ({ docP0 with provisioningStep := some "Starting container..." } : DeploymentRecord).internalPort = none := hportP.trans hportC2
              split at hspawn
              next cmsg st4 heqC =>
                have hc4 := congrArg (fun r => (r.2).inFlight) heqC
                simp only [] at hc4
                rw [createAndStart_inflight] at hc4
                simp only [Prod.mk.injEq] at hspawn
                obtain ⟨h1, h2, h3⟩ := hspawn
                have he := Except.error.inj h1
                subst he
                rw [handleDeploymentFailure_fresh env _ _ _ hcidP2 hportP2] at h2 h3
                refine ⟨?_, fun hne => ?_, ?_⟩
                · rw [← h2]; exact (markAsError_spec _ _ _ _).1
                · rw [← h2]; exact (markAsError_spec _ _ _ _).2.1 hne
                · rw [← h3]
                  exact ((markAsError_spec _ _ _ _).2.2.1).trans (hc4.symm.trans hA)
              next containerId st4 heqC =>
                split at hspawn
                next f t heqS =>
                  simp only [Prod.mk.injEq] at hspawn
                  exact absurd (Except.error.inj hspawn.1).symm (htr f t)
                next docT heqS =>
                  simp at hspawn

/-- Closed witness for the amended C2 theorem, at the concrete start-failure
scenario: the hypotheses hold there and the cleanup facts follow. -/
theorem c2_spawn_failure_cleanup_witness :
    (spawnAgent c2Env c2InitDoc c2InitState).2.1.status = DeploymentStatus.error ∧
    (spawnAgent c2Env c2InitDoc c2InitState).2.1.errorMessage =
      some "Failed to start container" ∧
    (spawnAgent c2Env c2InitDoc c2InitState).2.2.inFlight = c2InitState.inFlight := by
  have h := c2_spawn_failure_cleanup c2Env c2InitDoc c2InitState
    (SpawnErr.container "Failed to start container")
    ((spawnAgent c2Env c2InitDoc c2InitState).2.1)
    ((spawnAgent c2Env c2InitDoc c2InitState).2.2)
    rfl rfl rfl (by decide) (by rfl)
    (fun m hx => SpawnErr.noConfusion hx)
    (fun f t hx => SpawnErr.noConfusion hx)
  exact ⟨h.1, h.2.1 (by decide), h.2.2⟩

end Proxyclaw
